import Mathlib

/-! chat-service: the session store and the two completion flows.

A shallow embedding of

* `internal/infra/repositories/chat.go` (`ChatRepositoryMySQL`: `Create`, `FindByID`, `Save`),
* `internal/usecase/chatcompletion/completion.go` (`Execute`, `createNewChat`),
* `internal/usecase/chatcompletionstream/completion.go` (`Execute`, `createNewChat`),

with the database, the gateway interface, the `entity` package and the OpenAI client made
explicit: the database is a value that the queries transform, the collaborators of the use
cases are records of functions, and every call a use case makes is written to a trace.

Conventions.  A Go `error` is represented by its `Error()` text, `nil` by `none`.  A Go `int`
is an `Int`; `int32(x)` wraps.  A `time.Time` is a number.  `float32`/`float64` values are
represented by the rational they denote; no arithmetic is performed on them in this code,
they are only copied between fields.
-/

namespace ChatService

/-! ## Go primitives -/

/-- Go's conversion `int32(x)` of an `int`: wrap to 32 bits, two's complement. -/
def int32 (x : Int) : Int := (x + 2147483648) % 4294967296 - 2147483648

/-- A `time.Time`. -/
abbrev Time := Nat

/-- A `float32` value (the rational it denotes). -/
abbrev Float32 := Rat

/-- A `float64` value (the rational it denotes). -/
abbrev Float64 := Rat

/-- Go's `float64(x)` of a `float32`: exact. -/
def float64 (x : Float32) : Float64 := x

/-- Go's `float32(x)` of a `float64`; the identity on the values `float64` produces, which are
the only ones the rows written by this code hold. -/
def float32 (x : Float64) : Float32 := x

/-- A `context.Context`: the background context or one derived for a caller. -/
inductive Context where
  | Background
  | Request (name : String)
deriving DecidableEq, Repr

/-- How a Go call whose only result is an `error` ends: it returns (`none` is `nil`) or it
panics. -/
inductive Completion where
  | returned (err : Option String)
  | panicked (msg : String)
deriving DecidableEq, Repr

/-- The runtime panic of `xs[0]` on an empty slice. -/
def indexOutOfRange : String := "runtime error: index out of range [0] with length 0"

/-- The runtime panic of a field access through a nil pointer. -/
def nilDereference : String := "runtime error: invalid memory address or nil pointer dereference"

/-! ## The entity types (fields as used by the code under verification) -/

namespace entity

/-- The type `entity.Model`. -/
structure Model where
  Name : String
  MaxTokens : Int
deriving DecidableEq, Repr

/-- Modelled from the spec: the accessor `Model.GetName` of the entity package, which is not
among the sources; the model is a value object naming an LLM variant. -/
def Model.GetName (m : Model) : String := m.Name

/-- The type `entity.Message`. -/
structure Message where
  ID : String
  Role : String
  Content : String
  Tokens : Int
  Model : Model
  CreatedAt : Time
deriving DecidableEq, Repr

/-- The type `entity.ChatConfiguration`. -/
structure ChatConfiguration where
  Model : Model
  Temperature : Float32
  TopP : Float32
  N : Int
  Stop : List String
  MaxTokens : Int
  PresencePenalty : Float32
  FrequencyPenalty : Float32
deriving DecidableEq, Repr

/-- The type `entity.Chat`.  `InitialSystemMessage` is a pointer that `FindByID` leaves nil. -/
structure Chat where
  ID : String
  UserID : String
  InitialSystemMessage : Option Message
  Messages : List Message
  ErasedMessages : List Message
  Status : String
  TokenUsage : Int
  Configuration : ChatConfiguration
deriving DecidableEq, Repr

end entity

/-! ## The database, as explicit state -/

namespace db

/-- A row of the table `chats`. -/
structure ChatRow where
  ID : String
  UserID : String
  InitialMessageID : String
  Status : String
  TokenUsage : Int
  Model : String
  ModelMaxTokens : Int
  Temperature : Float64
  TopP : Float64
  N : Int
  Stop : String
  MaxTokens : Int
  PresencePenalty : Float64
  FrequencyPenalty : Float64
  CreatedAt : Time
  UpdatedAt : Time
deriving DecidableEq, Repr

/-- A row of the table `messages`. -/
structure MessageRow where
  ID : String
  ChatID : String
  Content : String
  Role : String
  Tokens : Int
  Model : String
  CreatedAt : Time
  OrderMsg : Int
  Erased : Bool
deriving DecidableEq, Repr

/-- The parameters of the query `Create`: one value per column of `chats`. -/
abbrev CreateParams := ChatRow

/-- The parameters of the query `AddMessage`: one value per column of `messages`. -/
abbrev AddMessageParams := MessageRow

/-- The parameters of the query `Save`. -/
structure SaveParams where
  ID : String
  UserID : String
  Status : String
  TokenUsage : Int
  Model : String
  ModelMaxTokens : Int
  Temperature : Float64
  TopP : Float64
  N : Int
  Stop : String
  MaxTokens : Int
  PresencePenalty : Float64
  FrequencyPenalty : Float64
  UpdatedAt : Time
deriving DecidableEq, Repr

/-- The database behind `db.Queries`: the two tables, and the failure (if any) with which the
connection answers every query. -/
structure Queries where
  chats : List ChatRow
  messages : List MessageRow
  fault : Option String
deriving DecidableEq, Repr

/-- The text of `sql.ErrNoRows`. -/
def ErrNoRows : String := "sql: no rows in result set"

/-- Modelled from the spec: the generated query `Create` of the package `internal/infra/db`,
which is not among the sources; it inserts the header row of a session. -/
def Queries.Create (q : Queries) (arg : CreateParams) : Option String × Queries :=
  match q.fault with
  | some err => (some err, q)
  | none => (none, { q with chats := q.chats ++ [arg] })

/-- Modelled from the spec: the generated query `AddMessage` of the package
`internal/infra/db`, which is not among the sources; it inserts one message row, tagged with
its ordinal position and its erased flag. -/
def Queries.AddMessage (q : Queries) (arg : AddMessageParams) : Option String × Queries :=
  match q.fault with
  | some err => (some err, q)
  | none => (none, { q with messages := q.messages ++ [arg] })

/-- Modelled from the spec: the generated query `FindByID` of the package `internal/infra/db`,
which is not among the sources; it returns the header row of the session, and `sql.ErrNoRows`
when there is none. -/
def Queries.FindByID (q : Queries) (id : String) : Except String ChatRow :=
  match q.fault with
  | some err => .error err
  | none =>
    match q.chats.find? (fun row => row.ID == id) with
    | some row => .ok row
    | none => .error ErrNoRows

/-- The rows of a chat with the given erased flag, in `OrderMsg` order. -/
def selectMessages (q : Queries) (chatID : String) (erased : Bool) : List MessageRow :=
  (q.messages.filter (fun row => row.ChatID == chatID && row.Erased == erased)).insertionSort
    (fun a b => a.OrderMsg ≤ b.OrderMsg)

/-- Modelled from the spec: the generated query `FindMessagesByChatID` of the package
`internal/infra/db`, which is not among the sources; the rows written for that chat that are
not erased, in `OrderMsg` order. -/
def Queries.FindMessagesByChatID (q : Queries) (chatID : String) : Except String (List MessageRow) :=
  match q.fault with
  | some err => .error err
  | none => .ok (selectMessages q chatID false)

/-- Modelled from the spec: the generated query `FindErasedMessagesByChatID` of the package
`internal/infra/db`, which is not among the sources; the rows written for that chat that are
erased, in `OrderMsg` order. -/
def Queries.FindErasedMessagesByChatID (q : Queries) (chatID : String) :
    Except String (List MessageRow) :=
  match q.fault with
  | some err => .error err
  | none => .ok (selectMessages q chatID true)

/-- Modelled from the spec: the generated query `Save` of the package `internal/infra/db`,
which is not among the sources; it updates the header row of the session. -/
def Queries.Save (q : Queries) (arg : SaveParams) : Option String × Queries :=
  match q.fault with
  | some err => (some err, q)
  | none =>
    (none, { q with chats := q.chats.map (fun row =>
      if row.ID == arg.ID then
        { row with
          UserID := arg.UserID, Status := arg.Status, TokenUsage := arg.TokenUsage,
          Model := arg.Model, ModelMaxTokens := arg.ModelMaxTokens,
          Temperature := arg.Temperature, TopP := arg.TopP, N := arg.N, Stop := arg.Stop,
          MaxTokens := arg.MaxTokens, PresencePenalty := arg.PresencePenalty,
          FrequencyPenalty := arg.FrequencyPenalty, UpdatedAt := arg.UpdatedAt }
      else row) })

/-- Rows of `messages` left after deleting those of a chat with the given erased flag. -/
def deleteMessages (q : Queries) (chatID : String) (erased : Bool) : List MessageRow :=
  q.messages.filter (fun row => !(row.ChatID == chatID && row.Erased == erased))

/-- Modelled from the spec: the generated query `DeleteChatMessages` of the package
`internal/infra/db`, which is not among the sources; it deletes the active rows of the chat. -/
def Queries.DeleteChatMessages (q : Queries) (chatID : String) : Option String × Queries :=
  match q.fault with
  | some err => (some err, q)
  | none => (none, { q with messages := deleteMessages q chatID false })

/-- Modelled from the spec: the generated query `DeleteErasedChatMessages` of the package
`internal/infra/db`, which is not among the sources; it deletes the erased rows of the chat. -/
def Queries.DeleteErasedChatMessages (q : Queries) (chatID : String) : Option String × Queries :=
  match q.fault with
  | some err => (some err, q)
  | none => (none, { q with messages := deleteMessages q chatID true })

end db

/-! ## `ChatRepositoryMySQL` -/

namespace repositories

open entity

/-- `ChatRepositoryMySQL.Create` (chat.go, lines 25-66).  The two `time.Now()` readings are
arguments. -/
def Create (q : db.Queries) (_ctx : Context) (chat : Chat) (createdAt updatedAt : Time) :
    Completion × db.Queries :=
  match chat.InitialSystemMessage with
  | none => (.panicked nilDereference, q)
  | some initialSystemMessage =>
    match chat.Configuration.Stop with
    | [] => (.panicked indexOutOfRange, q)
    | stop0 :: _ =>
      match q.Create
          { ID := chat.ID
            UserID := chat.UserID
            InitialMessageID := initialSystemMessage.ID
            Status := chat.Status
            TokenUsage := int32 chat.TokenUsage
            Model := chat.Configuration.Model.GetName
            ModelMaxTokens := int32 chat.Configuration.MaxTokens
            Temperature := float64 chat.Configuration.Temperature
            TopP := float64 chat.Configuration.TopP
            N := int32 chat.Configuration.N
            Stop := stop0
            MaxTokens := int32 chat.Configuration.MaxTokens
            PresencePenalty := float64 chat.Configuration.FrequencyPenalty
            FrequencyPenalty := float64 chat.Configuration.FrequencyPenalty
            CreatedAt := createdAt
            UpdatedAt := updatedAt } with
      | (some err, q1) => (.returned (some err), q1)
      | (none, q1) =>
        match q1.AddMessage
            { ID := initialSystemMessage.ID
              ChatID := chat.ID
              Content := initialSystemMessage.Content
              Role := initialSystemMessage.Role
              Tokens := int32 initialSystemMessage.Tokens
              Model := ""
              CreatedAt := initialSystemMessage.CreatedAt
              OrderMsg := 0
              Erased := false } with
        | (some err, q2) => (.returned (some err), q2)
        | (none, q2) => (.returned none, q2)

/-- The message built from a row in both loops of `FindByID` (chat.go, lines 99-106 and
115-122). -/
def messageOfRow (message : db.MessageRow) : Message :=
  { ID := message.ID
    Content := message.Content
    Role := message.Role
    Tokens := message.Tokens
    Model := { Name := message.Model, MaxTokens := 0 }
    CreatedAt := message.CreatedAt }

/-- `ChatRepositoryMySQL.FindByID` (chat.go, lines 68-125).  Each `for ... range` loop is a
left fold over the rows; the second one assigns `append(chat.Messages, ...)` to
`chat.ErasedMessages`, as the source does. -/
def FindByID (q : db.Queries) (_ctx : Context) (chatID : String) : Except String Chat :=
  match q.FindByID chatID with
  | .error _ => .error "chat not found"
  | .ok chatResult =>
    let chat : Chat :=
      { ID := chatResult.ID
        UserID := chatResult.UserID
        InitialSystemMessage := none
        Messages := []
        ErasedMessages := []
        Status := chatResult.Status
        TokenUsage := chatResult.TokenUsage
        Configuration :=
          { Model := { Name := chatResult.Model, MaxTokens := chatResult.ModelMaxTokens }
            Temperature := float32 chatResult.Temperature
            TopP := float32 chatResult.TopP
            N := chatResult.N
            Stop := [chatResult.Stop]
            MaxTokens := chatResult.MaxTokens
            PresencePenalty := float32 chatResult.PresencePenalty
            FrequencyPenalty := float32 chatResult.FrequencyPenalty } }
    match q.FindMessagesByChatID chatID with
    | .error err => .error err
    | .ok messages =>
      let chat := messages.foldl
        (fun (chat : Chat) message =>
          { chat with Messages := chat.Messages ++ [messageOfRow message] }) chat
      match q.FindErasedMessagesByChatID chatID with
      | .error err => .error err
      | .ok erasedMessages =>
        .ok (erasedMessages.foldl
          (fun (chat : Chat) message =>
            { chat with ErasedMessages := chat.Messages ++ [messageOfRow message] }) chat)

/-- The two insertion loops of `Save` (chat.go, lines 163-183 and 185-205): one `AddMessage`
per message, with the running index `i` and the erased flag of the loop. -/
def saveMessages (chat : Chat) (erased : Bool) :
    List Message → Int → db.Queries → Option String × db.Queries
  | [], _, q => (none, q)
  | message :: rest, i, q =>
    match q.AddMessage
        { ID := message.ID
          ChatID := chat.ID
          Content := message.Content
          Role := message.Role
          Tokens := int32 message.Tokens
          Model := chat.Configuration.Model.Name
          CreatedAt := message.CreatedAt
          OrderMsg := int32 i
          Erased := erased } with
    | (some err, q1) => (some err, q1)
    | (none, q1) => saveMessages chat erased rest (i + 1) q1

/-- `ChatRepositoryMySQL.Save` (chat.go, lines 127-207).  The `time.Now()` reading is an
argument. -/
def Save (q : db.Queries) (_ctx : Context) (chat : Chat) (updatedAt : Time) :
    Completion × db.Queries :=
  match chat.Configuration.Stop with
  | [] => (.panicked indexOutOfRange, q)
  | stop0 :: _ =>
    let params : db.SaveParams :=
      { ID := chat.ID
        UserID := chat.UserID
        Status := chat.Status
        TokenUsage := int32 chat.TokenUsage
        Model := chat.Configuration.Model.Name
        ModelMaxTokens := int32 chat.Configuration.Model.MaxTokens
        Temperature := float64 chat.Configuration.Temperature
        TopP := float64 chat.Configuration.TopP
        N := int32 chat.Configuration.N
        Stop := stop0
        MaxTokens := int32 chat.Configuration.MaxTokens
        PresencePenalty := float64 chat.Configuration.PresencePenalty
        FrequencyPenalty := float64 chat.Configuration.FrequencyPenalty
        UpdatedAt := updatedAt }
    match q.Save params with
    | (some err, q1) => (.returned (some err), q1)
    | (none, q1) =>
      match q1.DeleteChatMessages chat.ID with
      | (some err, q2) => (.returned (some err), q2)
      | (none, q2) =>
        match q2.DeleteErasedChatMessages chat.ID with
        | (some err, q3) => (.returned (some err), q3)
        | (none, q3) =>
          match saveMessages chat false chat.Messages 0 q3 with
          | (some err, q4) => (.returned (some err), q4)
          | (none, q4) =>
            match saveMessages chat true chat.ErasedMessages 0 q4 with
            | (some err, q5) => (.returned (some err), q5)
            | (none, q5) => (.returned none, q5)

end repositories

/-! ## The collaborators of the use cases -/

namespace entity

/-- Modelled from the spec: the constructor `NewModel` of the entity package, which is not
among the sources; a model is a name and its maximum context-token capacity. -/
def NewModel (name : String) (maxTokens : Int) : Model :=
  { Name := name, MaxTokens := maxTokens }

/-- The functions of the package `entity` that the use cases call.  The package is not among
the sources, so the use cases are verified for every implementation of these functions.
`AddMessage` has a pointer receiver: it returns its error together with the session as it
leaves it. -/
structure Package where
  NewMessage : String → String → Model → Except String Message
  NewChat : String → Message → ChatConfiguration → Except String Chat
  AddMessage : Chat → Message → Option String × Chat

end entity

namespace gateway

/-- The interface `gateway.ChatGateway` (domain/gateway/chat.go).  Within one run of a use
case each method is called at most once, so an implementation is given by what each call
answers. -/
structure ChatGateway where
  Create : Context → entity.Chat → Option String
  FindByID : Context → String → Except String entity.Chat
  Save : Context → entity.Chat → Option String

end gateway

namespace openai

/-- The type `openai.ChatCompletionMessage` (the fields the use cases set or read). -/
structure ChatCompletionMessage where
  Role : String
  Content : String
deriving DecidableEq, Repr

/-- The type `openai.ChatCompletionRequest` (the fields the use cases set). -/
structure ChatCompletionRequest where
  Model : String
  Messages : List ChatCompletionMessage
  MaxTokens : Int
  Temperature : Float32
  TopP : Float32
  PresencePenalty : Float32
  FrequencyPenalty : Float32
  Stop : List String
  Stream : Bool
deriving DecidableEq, Repr

/-- One element of `ChatCompletionResponse.Choices`. -/
structure ChatCompletionChoice where
  Message : ChatCompletionMessage
deriving DecidableEq, Repr

/-- The type `openai.ChatCompletionResponse`. -/
structure ChatCompletionResponse where
  Choices : List ChatCompletionChoice
deriving DecidableEq, Repr

/-- The field `Delta` of a stream choice. -/
structure ChatCompletionStreamChoiceDelta where
  Content : String
deriving DecidableEq, Repr

/-- One element of `ChatCompletionStreamResponse.Choices`. -/
structure ChatCompletionStreamChoice where
  Delta : ChatCompletionStreamChoiceDelta
deriving DecidableEq, Repr

/-- The type `openai.ChatCompletionStreamResponse`. -/
structure ChatCompletionStreamResponse where
  Choices : List ChatCompletionStreamChoice
deriving DecidableEq, Repr

/-- The error with which a stream stops delivering: `io.EOF`, or any other error. -/
inductive RecvError where
  | EOF
  | other (err : String)
deriving DecidableEq, Repr

/-- The type `openai.ChatCompletionStream`, as explicit state: `Recv` returns the responses
still pending one by one, and the terminal error once none is left. -/
structure ChatCompletionStream where
  pending : List ChatCompletionStreamResponse
  terminal : RecvError
deriving DecidableEq, Repr

/-- The two methods of `openai.Client` that the use cases call. -/
structure Client where
  CreateChatCompletion : Context → ChatCompletionRequest → Except String ChatCompletionResponse
  CreateChatCompletionStream : Context → ChatCompletionRequest → Except String ChatCompletionStream

end openai

/-- A call made by a use case to one of its collaborators, with its arguments. -/
inductive Call where
  | FindByID (ctx : Context) (chatID : String)
  | Create (ctx : Context) (chat : entity.Chat)
  | Save (ctx : Context) (chat : entity.Chat)
  | NewMessage (role content : String) (model : entity.Model)
  | NewChat (userID : String) (initialSystemMessage : entity.Message)
      (chatConfiguration : entity.ChatConfiguration)
  | AddMessage (chat : entity.Chat) (message : entity.Message)
  | CreateChatCompletion (ctx : Context) (req : openai.ChatCompletionRequest)
  | CreateChatCompletionStream (ctx : Context) (req : openai.ChatCompletionRequest)
deriving DecidableEq, Repr

/-- Calls of `ChatGateway.Create`. -/
def Call.isCreate : Call → Bool
  | .Create _ _ => true
  | _ => false

/-- Calls of `ChatGateway.Save`. -/
def Call.isSave : Call → Bool
  | .Save _ _ => true
  | _ => false

/-- Calls of the completion provider. -/
def Call.isProvider : Call → Bool
  | .CreateChatCompletion _ _ => true
  | .CreateChatCompletionStream _ _ => true
  | _ => false

/-- Calls of `entity.NewMessage` that build an assistant message. -/
def Call.isAssistantMessage : Call → Bool
  | .NewMessage role _ _ => role == "assistant"
  | _ => false

/-- Calls of `Chat.AddMessage`. -/
def Call.isAddMessage : Call → Bool
  | .AddMessage _ _ => true
  | _ => false

/-- What `Execute` hands back: an output with a nil error, a nil output with an error, or a
panic. -/
inductive Outcome (α : Type) where
  | ok (output : α)
  | error (err : String)
  | panic (msg : String)
deriving DecidableEq, Repr

/-! ## The synchronous use case -/

namespace chatcompletion

open entity

/-- The type `ChatCompletionConfigurationInput`. -/
structure ChatCompletionConfigurationInput where
  Model : String
  ModelMaxTokens : Int
  Temperature : Float32
  TopP : Float32
  N : Int
  Stop : List String
  MaxTokens : Int
  PresencePenalty : Float32
  FrequencyPenalty : Float32
  InitialSystemMessage : String
deriving DecidableEq, Repr

/-- The type `ChatCompletionInput`. -/
structure ChatCompletionInput where
  ChatID : String
  UserID : String
  UserMessage : String
  Configuration : ChatCompletionConfigurationInput
deriving DecidableEq, Repr

/-- The type `ChatCompletionOutput`. -/
structure ChatCompletionOutput where
  ChatID : String
  UserID : String
  Content : String
deriving DecidableEq, Repr

/-- The type `ChatCompletionUseCase`. -/
structure ChatCompletionUseCase where
  ChatGateway : gateway.ChatGateway
  OpenAIClient : openai.Client

/-- A run of `Execute`: what it hands back, the calls it made to its collaborators, in order,
and the session it holds in memory when it ends (`none`: no session was obtained). -/
structure Run where
  result : Outcome ChatCompletionOutput
  calls : List Call
  chat : Option Chat
deriving DecidableEq, Repr

/-- `createNewChat` (chatcompletion/completion.go, lines 124-146), with the calls it makes. -/
def createNewChat (pkg : Package) (input : ChatCompletionInput) : Except String Chat × List Call :=
  let model := NewModel input.Configuration.Model input.Configuration.ModelMaxTokens
  let chatConfiguration : ChatConfiguration :=
    { Temperature := input.Configuration.Temperature
      TopP := input.Configuration.TopP
      N := input.Configuration.N
      Stop := input.Configuration.Stop
      MaxTokens := input.Configuration.MaxTokens
      PresencePenalty := input.Configuration.PresencePenalty
      FrequencyPenalty := input.Configuration.FrequencyPenalty
      Model := model }
  match pkg.NewMessage "system" input.Configuration.InitialSystemMessage model with
  | .error err =>
    (.error ("error creating initial message: " ++ err),
      [.NewMessage "system" input.Configuration.InitialSystemMessage model])
  | .ok initialMessage =>
    match pkg.NewChat input.UserID initialMessage chatConfiguration with
    | .error err =>
      (.error ("error creating new chat: " ++ err),
        [.NewMessage "system" input.Configuration.InitialSystemMessage model,
         .NewChat input.UserID initialMessage chatConfiguration])
    | .ok chat =>
      (.ok chat,
        [.NewMessage "system" input.Configuration.InitialSystemMessage model,
         .NewChat input.UserID initialMessage chatConfiguration])

/-- The first block of `Execute` (chatcompletion/completion.go, lines 51-65): look the session
up and, on the text "chat not found", create and persist a new one.  It hands the session and
the calls made so far to the rest of `Execute`, or ends the run. -/
def findOrCreate (pkg : Package) (uc : ChatCompletionUseCase) (ctx : Context)
    (input : ChatCompletionInput) : Except Run (Chat × List Call) :=
  match uc.ChatGateway.FindByID ctx input.ChatID with
  | .ok chat => .ok (chat, [.FindByID ctx input.ChatID])
  | .error err =>
    if err = "chat not found" then
      match createNewChat pkg input with
      | (.error err, made) =>
        .error
          { result := .error ("error creating new chat: " ++ err)
            calls := .FindByID ctx input.ChatID :: made
            chat := none }
      | (.ok chat, made) =>
        match uc.ChatGateway.Create ctx chat with
        | some err =>
          .error
            { result := .error ("error persisting new chat: " ++ err)
              calls := .FindByID ctx input.ChatID :: (made ++ [.Create ctx chat])
              chat := some chat }
        | none => .ok (chat, .FindByID ctx input.ChatID :: (made ++ [.Create ctx chat]))
    else
      .error
        { result := .error ("error fetching existing chat: " ++ err)
          calls := [.FindByID ctx input.ChatID]
          chat := none }

/-- The request built by `Execute` from the session (chatcompletion/completion.go, lines 76-82
and 86-95): the active window projected to role and content, and the configuration. -/
def request (chat : Chat) : openai.ChatCompletionRequest :=
  { Model := chat.Configuration.Model.Name
    Messages := chat.Messages.map (fun msg => { Role := msg.Role, Content := msg.Content })
    MaxTokens := chat.Configuration.MaxTokens
    Temperature := chat.Configuration.Temperature
    TopP := chat.Configuration.TopP
    PresencePenalty := chat.Configuration.PresencePenalty
    FrequencyPenalty := chat.Configuration.FrequencyPenalty
    Stop := chat.Configuration.Stop
    Stream := false }

/-- `ChatCompletionUseCase.Execute` (chatcompletion/completion.go, lines 50-122).  The provider
is called with `context.Background()`, as in the source. -/
def Execute (pkg : Package) (uc : ChatCompletionUseCase) (ctx : Context)
    (input : ChatCompletionInput) : Run :=
  match findOrCreate pkg uc ctx input with
  | .error run => run
  | .ok (chat, made) =>
    let made := made ++ [.NewMessage "user" input.UserMessage chat.Configuration.Model]
    match pkg.NewMessage "user" input.UserMessage chat.Configuration.Model with
    | .error err =>
      { result := .error ("error creating new message: " ++ err), calls := made, chat := some chat }
    | .ok userMessage =>
      let made := made ++ [.AddMessage chat userMessage]
      match pkg.AddMessage chat userMessage with
      | (some err, chat) =>
        { result := .error ("error adding new message: " ++ err), calls := made, chat := some chat }
      | (none, chat) =>
        let made := made ++ [.CreateChatCompletion .Background (request chat)]
        match uc.OpenAIClient.CreateChatCompletion .Background (request chat) with
        | .error err =>
          { result := .error ("error openai: " ++ err), calls := made, chat := some chat }
        | .ok resp =>
          match resp.Choices with
          | [] => { result := .panic indexOutOfRange, calls := made, chat := some chat }
          | choice0 :: _ =>
            let made := made ++
              [.NewMessage "assistant" choice0.Message.Content chat.Configuration.Model]
            match pkg.NewMessage "assistant" choice0.Message.Content chat.Configuration.Model with
            | .error err => { result := .error err, calls := made, chat := some chat }
            | .ok assistant =>
              let made := made ++ [.AddMessage chat assistant]
              match pkg.AddMessage chat assistant with
              | (some err, chat) => { result := .error err, calls := made, chat := some chat }
              | (none, chat) =>
                let made := made ++ [.Save ctx chat]
                match uc.ChatGateway.Save ctx chat with
                | some err => { result := .error err, calls := made, chat := some chat }
                | none =>
                  { result := .ok
                      { ChatID := chat.ID
                        UserID := input.UserID
                        Content := choice0.Message.Content }
                    calls := made
                    chat := some chat }

end chatcompletion

/-! ## The streaming use case -/

namespace chatcompletionstream

open entity

/-- The type `ChatCompletionConfigurationInput`. -/
structure ChatCompletionConfigurationInput where
  Model : String
  ModelMaxTokens : Int
  Temperature : Float32
  TopP : Float32
  N : Int
  Stop : List String
  MaxTokens : Int
  PresencePenalty : Float32
  FrequencyPenalty : Float32
  InitialSystemMessage : String
deriving DecidableEq, Repr

/-- The type `ChatCompletionInput`. -/
structure ChatCompletionInput where
  ChatID : String
  UserID : String
  UserMessage : String
  Config : ChatCompletionConfigurationInput
deriving DecidableEq, Repr

/-- The type `ChatCompletionOutput`. -/
structure ChatCompletionOutput where
  ChatID : String
  UserID : String
  Content : String
deriving DecidableEq, Repr

/-- The type `ChatCompletionUseCase`.  Its channel `Stream` is the list `sent` of a run: the
outputs sent on it, in order. -/
structure ChatCompletionUseCase where
  ChatGateway : gateway.ChatGateway
  OpenAiClient : openai.Client

/-- A run of `Execute`: what it hands back, the calls it made to its collaborators, in order,
the session it holds in memory when it ends, and the outputs it sent on `uc.Stream`, in
order. -/
structure Run where
  result : Outcome ChatCompletionOutput
  calls : List Call
  chat : Option Chat
  sent : List ChatCompletionOutput
deriving DecidableEq, Repr

/-- `createNewChat` (chatcompletionstream/completion.go, lines 144-166), with the calls it
makes. -/
def createNewChat (pkg : Package) (input : ChatCompletionInput) : Except String Chat × List Call :=
  let model := NewModel input.Config.Model input.Config.ModelMaxTokens
  let chatConfig : ChatConfiguration :=
    { Temperature := input.Config.Temperature
      TopP := input.Config.TopP
      N := input.Config.N
      Stop := input.Config.Stop
      MaxTokens := input.Config.MaxTokens
      PresencePenalty := input.Config.PresencePenalty
      FrequencyPenalty := input.Config.FrequencyPenalty
      Model := model }
  match pkg.NewMessage "system" input.Config.InitialSystemMessage model with
  | .error err =>
    (.error ("error creating initial message: " ++ err),
      [.NewMessage "system" input.Config.InitialSystemMessage model])
  | .ok initialMessage =>
    match pkg.NewChat input.UserID initialMessage chatConfig with
    | .error err =>
      (.error ("error creating new chat: " ++ err),
        [.NewMessage "system" input.Config.InitialSystemMessage model,
         .NewChat input.UserID initialMessage chatConfig])
    | .ok chat =>
      (.ok chat,
        [.NewMessage "system" input.Config.InitialSystemMessage model,
         .NewChat input.UserID initialMessage chatConfig])

/-- The first block of `Execute` (chatcompletionstream/completion.go, lines 55-69): look the
session up and, on the text "chat not found", create and persist a new one.  It hands the
session and the calls made so far to the rest of `Execute`, or ends the run. -/
def findOrCreate (pkg : Package) (uc : ChatCompletionUseCase) (ctx : Context)
    (input : ChatCompletionInput) : Except Run (Chat × List Call) :=
  match uc.ChatGateway.FindByID ctx input.ChatID with
  | .ok chat => .ok (chat, [.FindByID ctx input.ChatID])
  | .error err =>
    if err = "chat not found" then
      match createNewChat pkg input with
      | (.error err, made) =>
        .error
          { result := .error ("error creating new chat: " ++ err)
            calls := .FindByID ctx input.ChatID :: made
            chat := none
            sent := [] }
      | (.ok chat, made) =>
        match uc.ChatGateway.Create ctx chat with
        | some err =>
          .error
            { result := .error ("error persisting new chat: " ++ err)
              calls := .FindByID ctx input.ChatID :: (made ++ [.Create ctx chat])
              chat := some chat
              sent := [] }
        | none => .ok (chat, .FindByID ctx input.ChatID :: (made ++ [.Create ctx chat]))
    else
      .error
        { result := .error ("error fetching existing chat: " ++ err)
          calls := [.FindByID ctx input.ChatID]
          chat := none
          sent := [] }

/-- The request built by `Execute` from the session (chatcompletionstream/completion.go, lines
80-86 and 90-100). -/
def request (chat : Chat) : openai.ChatCompletionRequest :=
  { Model := chat.Configuration.Model.Name
    Messages := chat.Messages.map (fun message => { Role := message.Role, Content := message.Content })
    MaxTokens := chat.Configuration.MaxTokens
    Temperature := chat.Configuration.Temperature
    TopP := chat.Configuration.TopP
    PresencePenalty := chat.Configuration.PresencePenalty
    FrequencyPenalty := chat.Configuration.FrequencyPenalty
    Stop := chat.Configuration.Stop
    Stream := true }

/-- How the receive loop ends: on `io.EOF` (the `break`), on another error of `Recv`, or on the
panic of `response.Choices[0]`. -/
inductive LoopExit where
  | eof
  | failed (err : String)
  | noChoice
deriving DecidableEq, Repr

/-- The state of the receive loop when it ends: the text accumulated in `fullResponse` and the
outputs sent on `uc.Stream`. -/
structure Loop where
  exit : LoopExit
  fullResponse : String
  sent : List ChatCompletionOutput
deriving DecidableEq, Repr

/-- The loop `for { response, err := res.Recv() ... }` of `Execute`
(chatcompletionstream/completion.go, lines 106-123), started with the text `fullResponse`
accumulated and the outputs `sent` already on the channel.  `Recv` returns the head of the
pending responses, and the terminal error of the stream when none is left. -/
def receive (chatID userID : String) (terminal : openai.RecvError) :
    List openai.ChatCompletionStreamResponse → String → List ChatCompletionOutput → Loop
  | [], fullResponse, sent =>
    match terminal with
    | .EOF => { exit := .eof, fullResponse := fullResponse, sent := sent }
    | .other err => { exit := .failed err, fullResponse := fullResponse, sent := sent }
  | response :: pending, fullResponse, sent =>
    match response.Choices with
    | [] => { exit := .noChoice, fullResponse := fullResponse, sent := sent }
    | choice0 :: _ =>
      receive chatID userID terminal pending (fullResponse ++ choice0.Delta.Content)
        (sent ++
          [{ ChatID := chatID, UserID := userID, Content := fullResponse ++ choice0.Delta.Content }])

/-- `ChatCompletionUseCase.Execute` (chatcompletionstream/completion.go, lines 54-142). -/
def Execute (pkg : Package) (uc : ChatCompletionUseCase) (ctx : Context)
    (input : ChatCompletionInput) : Run :=
  match findOrCreate pkg uc ctx input with
  | .error run => run
  | .ok (chat, made) =>
    let made := made ++ [.NewMessage "user" input.UserMessage chat.Configuration.Model]
    match pkg.NewMessage "user" input.UserMessage chat.Configuration.Model with
    | .error err =>
      { result := .error ("error creating user message: " ++ err)
        calls := made, chat := some chat, sent := [] }
    | .ok userMessage =>
      let made := made ++ [.AddMessage chat userMessage]
      match pkg.AddMessage chat userMessage with
      | (some err, chat) =>
        { result := .error ("error adding new message: " ++ err)
          calls := made, chat := some chat, sent := [] }
      | (none, chat) =>
        let made := made ++ [.CreateChatCompletionStream ctx (request chat)]
        match uc.OpenAiClient.CreateChatCompletionStream ctx (request chat) with
        | .error err =>
          { result := .error ("error creating chat completion: " ++ err)
            calls := made, chat := some chat, sent := [] }
        | .ok res =>
          let loop := receive chat.ID input.UserID res.terminal res.pending "" []
          match loop.exit with
          | .noChoice =>
            { result := .panic indexOutOfRange, calls := made, chat := some chat, sent := loop.sent }
          | .failed err =>
            { result := .error ("error streaming response: " ++ err)
              calls := made, chat := some chat, sent := loop.sent }
          | .eof =>
            let made := made ++
              [.NewMessage "assistant" loop.fullResponse chat.Configuration.Model]
            match pkg.NewMessage "assistant" loop.fullResponse chat.Configuration.Model with
            | .error err =>
              { result := .error ("error creating assistant message: " ++ err)
                calls := made, chat := some chat, sent := loop.sent }
            | .ok assistant =>
              let made := made ++ [.AddMessage chat assistant]
              match pkg.AddMessage chat assistant with
              | (some err, chat) =>
                { result := .error ("error adding new message: " ++ err)
                  calls := made, chat := some chat, sent := loop.sent }
              | (none, chat) =>
                let made := made ++ [.Save ctx chat]
                match uc.ChatGateway.Save ctx chat with
                | some err =>
                  { result := .error ("error saving chat: " ++ err)
                    calls := made, chat := some chat, sent := loop.sent }
                | none =>
                  { result := .ok
                      { ChatID := chat.ID
                        UserID := input.UserID
                        Content := loop.fullResponse }
                    calls := made
                    chat := some chat
                    sent := loop.sent }

end chatcompletionstream

/-! ## Vocabulary of the statements -/

/-- What the round trip of the store compares of a message: id, role, content and token
count. -/
def entity.Message.view (m : entity.Message) : String × String × String × Int :=
  (m.ID, m.Role, m.Content, m.Tokens)

/-- The context a call of the completion provider was given, if the call is one. -/
def Call.providerContext : Call → Option Context
  | .CreateChatCompletion ctx _ => some ctx
  | .CreateChatCompletionStream ctx _ => some ctx
  | _ => none

/-- The delta a stream response delivers: `response.Choices[0].Delta.Content`. -/
def chatcompletionstream.delta (response : openai.ChatCompletionStreamResponse) : String :=
  match response.Choices with
  | [] => ""
  | choice0 :: _ => choice0.Delta.Content

/-- The rows that a loop of `Save` inserts for the messages `ms`, from index `i` on. -/
def repositories.rowsOf (chat : entity.Chat) (erased : Bool) :
    List entity.Message → Int → List db.MessageRow
  | [], _ => []
  | message :: rest, i =>
    { ID := message.ID
      ChatID := chat.ID
      Content := message.Content
      Role := message.Role
      Tokens := int32 message.Tokens
      Model := chat.Configuration.Model.Name
      CreatedAt := message.CreatedAt
      OrderMsg := int32 i
      Erased := erased } :: rowsOf chat erased rest (i + 1)

/-! ## Concrete sessions, databases and collaborators

The values at which the statements below are evaluated. -/

namespace sample

open entity

/-- A model. -/
def model : Model := { Name := "gpt-3.5-turbo", MaxTokens := 4096 }

/-- The system message of the sessions below. -/
def systemMessage : Message :=
  { ID := "m0", Role := "system", Content := "You are helpful.", Tokens := 4, Model := model,
    CreatedAt := 1 }

/-- A user message. -/
def hello : Message :=
  { ID := "m1", Role := "user", Content := "hello", Tokens := 1, Model := model, CreatedAt := 2 }

/-- An assistant message. -/
def reply : Message :=
  { ID := "m2", Role := "assistant", Content := "Hi!", Tokens := 2, Model := model,
    CreatedAt := 3 }

/-- A later user message. -/
def again : Message :=
  { ID := "m3", Role := "user", Content := "again", Tokens := 1, Model := model, CreatedAt := 4 }

/-- A configuration with one stop string. -/
def configuration : ChatConfiguration :=
  { Model := model, Temperature := 1, TopP := 1, N := 1, Stop := ["END"], MaxTokens := 50,
    PresencePenalty := 0, FrequencyPenalty := 0 }

/-- A new session: the system message only. -/
def fresh : Chat :=
  { ID := "c1", UserID := "u1", InitialSystemMessage := some systemMessage,
    Messages := [systemMessage], ErasedMessages := [], Status := "active", TokenUsage := 4,
    Configuration := configuration }

/-- The same session later: two turns were archived, one is left in the active window. -/
def archived : Chat :=
  { fresh with Messages := [systemMessage, again], ErasedMessages := [hello, reply],
               TokenUsage := 5 }

/-- The session `fresh` with an empty stop list. -/
def withoutStop : Chat :=
  { fresh with Configuration := { configuration with Stop := [] } }

/-- A new session whose presence penalty differs from its frequency penalty, and whose
output budget (50) differs from the capacity of its model (4096). -/
def penalised : Chat :=
  { fresh with Configuration := { configuration with PresencePenalty := 1, FrequencyPenalty := 0 } }

/-- A database with no rows and a working connection. -/
def emptyDB : db.Queries := { chats := [], messages := [], fault := none }

/-- The database after the session `fresh` was created in it. -/
def createdDB : db.Queries := (repositories.Create emptyDB .Background fresh 10 10).2

/-- The database `createdDB` behind a connection that is down. -/
def downDB : db.Queries :=
  { createdDB with fault := some "dial tcp 127.0.0.1:3306: connect: connection refused" }

/-- A database holding a session with the system message active and one erased user turn. -/
def erasedDB : db.Queries :=
  { chats :=
      [{ ID := "c1", UserID := "u1", InitialMessageID := "m0", Status := "active", TokenUsage := 4,
         Model := "gpt-3.5-turbo", ModelMaxTokens := 4096, Temperature := 1, TopP := 1, N := 1,
         Stop := "END", MaxTokens := 50, PresencePenalty := 0, FrequencyPenalty := 0,
         CreatedAt := 10, UpdatedAt := 11 }]
    messages :=
      [{ ID := "m0", ChatID := "c1", Content := "You are helpful.", Role := "system", Tokens := 4,
         Model := "gpt-3.5-turbo", CreatedAt := 1, OrderMsg := 0, Erased := false },
       { ID := "m1", ChatID := "c1", Content := "hello", Role := "user", Tokens := 1,
         Model := "gpt-3.5-turbo", CreatedAt := 2, OrderMsg := 0, Erased := true }]
    fault := none }

/-- An implementation of the entity functions for the runs below: empty content is rejected,
the token count is the number of characters, a new chat holds its system message, and
`AddMessage` appends to the active window. -/
def pkg : Package :=
  { NewMessage := fun role content model =>
      if content = "" then .error "content is empty"
      else .ok { ID := role ++ ":" ++ content, Role := role, Content := content,
                 Tokens := content.length, Model := model, CreatedAt := 0 }
    NewChat := fun userID initialSystemMessage chatConfiguration =>
      .ok { ID := "c2", UserID := userID, InitialSystemMessage := some initialSystemMessage,
            Messages := [initialSystemMessage], ErasedMessages := [], Status := "active",
            TokenUsage := initialSystemMessage.Tokens, Configuration := chatConfiguration }
    AddMessage := fun chat message =>
      (none, { chat with Messages := chat.Messages ++ [message],
                         TokenUsage := chat.TokenUsage + message.Tokens }) }

/-- A gateway that holds the session `fresh` and accepts every write. -/
def holding : gateway.ChatGateway :=
  { FindByID := fun _ _ => .ok fresh, Create := fun _ _ => none, Save := fun _ _ => none }

/-- A gateway whose lookup fails with a connection error. -/
def unreachable : gateway.ChatGateway :=
  { FindByID := fun _ _ => .error "dial tcp 127.0.0.1:3306: connect: connection refused"
    Create := fun _ _ => none, Save := fun _ _ => none }

/-- A gateway whose lookups are answered by the repository over the database `q`, and that
accepts every write. -/
def lookingUp (q : db.Queries) : gateway.ChatGateway :=
  { FindByID := repositories.FindByID q, Create := fun _ _ => none, Save := fun _ _ => none }

/-- A stream response with one choice. -/
def chunk (content : String) : openai.ChatCompletionStreamResponse :=
  { Choices := [{ Delta := { Content := content } }] }

/-- A provider that answers "Hi!" and streams "Hel", "lo" up to the end of the stream. -/
def answering : openai.Client :=
  { CreateChatCompletion := fun _ _ =>
      .ok { Choices := [{ Message := { Role := "assistant", Content := "Hi!" } }] }
    CreateChatCompletionStream := fun _ _ =>
      .ok { pending := [chunk "Hel", chunk "lo"], terminal := .EOF } }

/-- A provider whose blocking call fails and whose stream breaks after "Hel", "lo". -/
def failing : openai.Client :=
  { CreateChatCompletion := fun _ _ => .error "status code: 500"
    CreateChatCompletionStream := fun _ _ =>
      .ok { pending := [chunk "Hel", chunk "lo"], terminal := .other "unexpected EOF in body" } }

/-- The context of a caller. -/
def caller : Context := .Request "POST /chat"

/-- An input of the synchronous use case. -/
def question : chatcompletion.ChatCompletionInput :=
  { ChatID := "c1", UserID := "u1", UserMessage := "hello",
    Configuration :=
      { Model := "gpt-3.5-turbo", ModelMaxTokens := 4096, Temperature := 1, TopP := 1, N := 1,
        Stop := ["END"], MaxTokens := 50, PresencePenalty := 0, FrequencyPenalty := 0,
        InitialSystemMessage := "You are helpful." } }

/-- An input of the streaming use case. -/
def streamQuestion : chatcompletionstream.ChatCompletionInput :=
  { ChatID := "c1", UserID := "u1", UserMessage := "hello",
    Config :=
      { Model := "gpt-3.5-turbo", ModelMaxTokens := 4096, Temperature := 1, TopP := 1, N := 1,
        Stop := ["END"], MaxTokens := 50, PresencePenalty := 0, FrequencyPenalty := 0,
        InitialSystemMessage := "You are helpful." } }

/-- The user message `pkg` builds for these inputs. -/
def userMessage : Message :=
  { ID := "user:hello", Role := "user", Content := "hello", Tokens := 5, Model := model,
    CreatedAt := 0 }

/-- The session `fresh` after `pkg` appended that user message. -/
def asked : Chat :=
  { fresh with Messages := [systemMessage, userMessage], TokenUsage := 9 }

end sample

/-! ## Theorems: the store -/

namespace repositories

open entity

/-- Whatever makes the header query fail, `FindByID` answers "chat not found". -/
theorem FindByID_header_error (q : db.Queries) (ctx : Context) (chatID err : String)
    (h : q.FindByID chatID = .error err) :
    FindByID q ctx chatID = .error "chat not found" := by
  simp only [FindByID, h]

/-- A connection that is down makes the header query fail with the connection's error. -/
theorem header_query_of_fault (q : db.Queries) (chatID err : String) (h : q.fault = some err) :
    q.FindByID chatID = .error err := by
  simp only [db.Queries.FindByID, h]

/-- The first loop of `FindByID` appends one message per row to the active window. -/
theorem foldl_messages (rows : List db.MessageRow) (chat : Chat) :
    rows.foldl (fun (chat : Chat) message =>
        { chat with Messages := chat.Messages ++ [messageOfRow message] }) chat =
      { chat with Messages := chat.Messages ++ rows.map messageOfRow } := by
  induction rows generalizing chat with
  | nil => simp
  | cons row rest ih => simp [ih]

/-- The second loop of `FindByID` leaves in the archive the active window followed by the
last row, and leaves the archive as it was when there is no row. -/
theorem foldl_erased (rows : List db.MessageRow) (chat : Chat) :
    rows.foldl (fun (chat : Chat) message =>
        { chat with ErasedMessages := chat.Messages ++ [messageOfRow message] }) chat =
      { chat with ErasedMessages :=
          match rows.getLast? with
          | none => chat.ErasedMessages
          | some row => chat.Messages ++ [messageOfRow row] } := by
  induction rows generalizing chat with
  | nil => simp
  | cons row rest ih =>
    rw [List.foldl_cons, ih]
    cases rest with
    | nil => simp
    | cons r rs =>
      cases h : (r :: rs).getLast? with
      | none => simp at h
      | some last => simp [List.getLast?_cons_cons, h]

/-- What `FindByID` loads from a database whose connection works and that holds the header
row: the active window is the active rows, and the archive is empty when there is no erased
row and otherwise the active window followed by the last erased row. -/
theorem FindByID_loads (q : db.Queries) (ctx : Context) (chatID : String) (row : db.ChatRow)
    (hfault : q.fault = none) (hrow : q.chats.find? (fun row => row.ID == chatID) = some row) :
    ∃ chat, FindByID q ctx chatID = .ok chat ∧
      chat.TokenUsage = row.TokenUsage ∧
      chat.Messages = (db.selectMessages q chatID false).map messageOfRow ∧
      chat.ErasedMessages =
        (match (db.selectMessages q chatID true).getLast? with
          | none => []
          | some last => (db.selectMessages q chatID false).map messageOfRow ++ [messageOfRow last]) := by
  simp only [FindByID, db.Queries.FindByID, db.Queries.FindMessagesByChatID,
    db.Queries.FindErasedMessagesByChatID, hfault, hrow, foldl_messages, foldl_erased]
  refine ⟨_, rfl, rfl, by simp, ?_⟩
  cases (db.selectMessages q chatID true).getLast? <;> simp

/-- With an empty stop list `Create` panics on `Stop[0]` before any query. -/
theorem Create_without_stop (q : db.Queries) (ctx : Context) (chat : Chat) (message : Message)
    (createdAt updatedAt : Time)
    (hmessage : chat.InitialSystemMessage = some message) (hstop : chat.Configuration.Stop = []) :
    Create q ctx chat createdAt updatedAt = (.panicked indexOutOfRange, q) := by
  simp only [Create, hmessage, hstop]

/-- With an empty stop list `Save` panics on `Stop[0]` before any query. -/
theorem Save_without_stop (q : db.Queries) (ctx : Context) (chat : Chat) (updatedAt : Time)
    (hstop : chat.Configuration.Stop = []) :
    Save q ctx chat updatedAt = (.panicked indexOutOfRange, q) := by
  simp only [Save, hstop]

/-- The conversion `int32` keeps a value that fits in 32 bits. -/
theorem int32_of_fits (x : Int) (h1 : -2147483648 ≤ x) (h2 : x < 2147483648) : int32 x = x := by
  unfold int32
  omega

/-- On a working connection an insertion loop of `Save` adds the rows `rowsOf`. -/
theorem saveMessages_inserts (chat : Chat) (erased : Bool) :
    ∀ (ms : List Message) (i : Int) (q : db.Queries), q.fault = none →
      saveMessages chat erased ms i q =
        (none, { q with messages := q.messages ++ rowsOf chat erased ms i }) := by
  intro ms
  induction ms with
  | nil => intro i q _; simp [saveMessages, rowsOf]
  | cons m rest ih =>
    intro i q hq
    simp only [saveMessages, db.Queries.AddMessage, hq]
    rw [ih _ _ rfl]
    simp [rowsOf]

/-- The rows of a loop carry the id of the session and the erased flag of the loop. -/
theorem rowsOf_tags (chat : Chat) (erased : Bool) :
    ∀ (ms : List Message) (i : Int), ∀ row ∈ rowsOf chat erased ms i,
      row.ChatID = chat.ID ∧ row.Erased = erased := by
  intro ms
  induction ms with
  | nil => intro i row h; simp [rowsOf] at h
  | cons m rest ih =>
    intro i row h
    simp only [rowsOf, List.mem_cons] at h
    rcases h with rfl | h
    · exact ⟨rfl, rfl⟩
    · exact ih _ _ h

/-- The rows of a loop are numbered from the starting index upwards. -/
theorem rowsOf_order (chat : Chat) (erased : Bool) :
    ∀ (ms : List Message) (i : Int), 0 ≤ i → i + ms.length ≤ 2147483648 →
      ∀ row ∈ rowsOf chat erased ms i, i ≤ row.OrderMsg := by
  intro ms
  induction ms with
  | nil => intro i _ _ row h; simp [rowsOf] at h
  | cons m rest ih =>
    intro i h0 hlen row h
    simp only [List.length_cons, Nat.cast_add, Nat.cast_one] at hlen
    simp only [rowsOf, List.mem_cons] at h
    rcases h with rfl | h
    · simp only
      rw [int32_of_fits i (by omega) (by omega)]
    · have := ih (i + 1) (by omega) (by omega) row h
      omega

/-- The rows of a loop are in `OrderMsg` order. -/
theorem rowsOf_sorted (chat : Chat) (erased : Bool) :
    ∀ (ms : List Message) (i : Int), 0 ≤ i → i + ms.length ≤ 2147483648 →
      List.Sorted (fun a b : db.MessageRow => a.OrderMsg ≤ b.OrderMsg) (rowsOf chat erased ms i) := by
  intro ms
  induction ms with
  | nil => intro i _ _; simp [rowsOf]
  | cons m rest ih =>
    intro i h0 hlen
    simp only [List.length_cons, Nat.cast_add, Nat.cast_one] at hlen
    simp only [rowsOf, List.sorted_cons]
    refine ⟨?_, ih (i + 1) (by omega) (by omega)⟩
    intro row hrow
    have := rowsOf_order chat erased rest (i + 1) (by omega) (by omega) row hrow
    rw [int32_of_fits i (by omega) (by omega)]
    omega

/-- Reading back the rows of a loop gives the messages that were written. -/
theorem rowsOf_view (chat : Chat) (erased : Bool) :
    ∀ (ms : List Message) (i : Int), (∀ m ∈ ms, int32 m.Tokens = m.Tokens) →
      ((rowsOf chat erased ms i).map messageOfRow).map Message.view = ms.map Message.view := by
  intro ms
  induction ms with
  | nil => intro i _; simp [rowsOf]
  | cons m rest ih =>
    intro i h
    have hm := h m (List.mem_cons_self _ _)
    have hrest := ih (i + 1) (fun x hx => h x (List.mem_cons_of_mem _ hx))
    simp only [rowsOf, List.map_cons, hrest]
    simp [messageOfRow, Message.view, hm]

/-- The last row of a loop reads back as the last message written. -/
theorem rowsOf_getLast (chat : Chat) (erased : Bool) :
    ∀ (ms : List Message) (i : Int), (∀ m ∈ ms, int32 m.Tokens = m.Tokens) →
      ((rowsOf chat erased ms i).getLast?.map (fun row => (messageOfRow row).view)) =
        ms.getLast?.map Message.view := by
  intro ms i h
  have := rowsOf_view chat erased ms i h
  rw [← List.getLast?_map, ← List.getLast?_map]
  exact congrArg _ (by simpa [List.map_map, Function.comp_def] using this)


/-- After the two deletions of `Save` no row of the session is left. -/
theorem leftover_select (messages : List db.MessageRow) (chatID : String) (erased : Bool) :
    ((messages.filter (fun row => !(row.ChatID == chatID && row.Erased == false))).filter
        (fun row => !(row.ChatID == chatID && row.Erased == true))).filter
      (fun row => row.ChatID == chatID && row.Erased == erased) = [] := by
  rw [List.filter_eq_nil_iff]
  intro row hrow
  simp only [List.mem_filter] at hrow
  obtain ⟨⟨_, h1⟩, h2⟩ := hrow
  cases hc : (row.ChatID == chatID) <;> cases he : row.Erased <;> cases erased <;> simp_all

/-- Selecting the rows of a loop by session and erased flag gives all of them or none. -/
theorem rowsOf_select (chat : Chat) (erased wanted : Bool) (ms : List Message) (i : Int) :
    (rowsOf chat erased ms i).filter (fun row => row.ChatID == chat.ID && row.Erased == wanted) =
      if erased = wanted then rowsOf chat erased ms i else [] := by
  have htags := rowsOf_tags chat erased ms i
  split
  · rename_i h
    rw [List.filter_eq_self]
    intro row hrow
    simp [(htags row hrow).1, (htags row hrow).2, h]
  · rename_i h
    rw [List.filter_eq_nil_iff]
    intro row hrow
    simp [(htags row hrow).1, (htags row hrow).2, h]

/-- An update that keeps the ids commutes with the lookup of the header row. -/
theorem find_updated (chats : List db.ChatRow) (chatID : String) (f : db.ChatRow → db.ChatRow)
    (hf : ∀ row, (f row).ID = row.ID) :
    (chats.map f).find? (fun row => row.ID == chatID) =
      (chats.find? (fun row => row.ID == chatID)).map f := by
  induction chats with
  | nil => rfl
  | cons row rest ih =>
    simp only [List.map_cons, List.find?_cons, hf]
    cases row.ID == chatID <;> simp [ih]

/-- What `Save` leaves in a database whose connection works, for a session with a stop
string: the header row updated, the rows of other sessions, then one row per active message
and one per archived message, each numbered from 0. -/
theorem Save_writes (q : db.Queries) (ctx : Context) (chat : Chat) (updatedAt : Time)
    (hfault : q.fault = none) (hstop : chat.Configuration.Stop ≠ []) :
    (Save q ctx chat updatedAt).1 = .returned none ∧
    (Save q ctx chat updatedAt).2.fault = none ∧
    (Save q ctx chat updatedAt).2.messages =
      (((q.messages.filter (fun row => !(row.ChatID == chat.ID && row.Erased == false))).filter
          (fun row => !(row.ChatID == chat.ID && row.Erased == true))) ++
        rowsOf chat false chat.Messages 0) ++ rowsOf chat true chat.ErasedMessages 0 ∧
    ∀ row, q.chats.find? (fun row => row.ID == chat.ID) = some row →
      ∃ saved, (Save q ctx chat updatedAt).2.chats.find? (fun row => row.ID == chat.ID) =
          some saved ∧ saved.TokenUsage = int32 chat.TokenUsage := by
  cases hs : chat.Configuration.Stop with
  | nil => exact absurd hs hstop
  | cons stop0 rest =>
    simp only [Save, hs, db.Queries.Save, db.Queries.DeleteChatMessages,
      db.Queries.DeleteErasedChatMessages, db.deleteMessages, hfault]
    rw [saveMessages_inserts chat false chat.Messages 0 _ rfl]
    simp only []
    rw [saveMessages_inserts chat true chat.ErasedMessages 0 _ rfl]
    refine ⟨rfl, rfl, rfl, ?_⟩
    intro row hrow
    simp only []
    rw [find_updated _ _ _ (by intro r; split <;> rfl), hrow]
    have hid : row.ID = chat.ID := by
      have := List.find?_some hrow
      simpa using this
    simp [hid]


/-- The round trip of the store, for every session that fits the columns (a stop string, token
counts and usage within 32 bits): `Save` followed by `FindByID` returns the active window and
the token usage that were saved, and an archive that is empty when the saved archive is empty
and otherwise the active window followed by the last archived message. -/
theorem Save_then_FindByID (q : db.Queries) (ctx : Context) (chat : Chat) (updatedAt : Time)
    (row : db.ChatRow)
    (hfault : q.fault = none)
    (hrow : q.chats.find? (fun row => row.ID == chat.ID) = some row)
    (hstop : chat.Configuration.Stop ≠ [])
    (husage : int32 chat.TokenUsage = chat.TokenUsage)
    (hactive : ∀ m ∈ chat.Messages, int32 m.Tokens = m.Tokens)
    (harchive : ∀ m ∈ chat.ErasedMessages, int32 m.Tokens = m.Tokens)
    (hmany : (chat.Messages.length : Int) ≤ 2147483648)
    (hmanyErased : (chat.ErasedMessages.length : Int) ≤ 2147483648) :
    (Save q ctx chat updatedAt).1 = .returned none ∧
    ∃ loaded, FindByID (Save q ctx chat updatedAt).2 ctx chat.ID = .ok loaded ∧
      loaded.Messages.map Message.view = chat.Messages.map Message.view ∧
      loaded.TokenUsage = chat.TokenUsage ∧
      loaded.ErasedMessages.map Message.view =
        (match chat.ErasedMessages.getLast? with
          | none => []
          | some last => (chat.Messages ++ [last]).map Message.view) := by
  obtain ⟨hdone, hq, hmessages, hheader⟩ := Save_writes q ctx chat updatedAt hfault hstop
  obtain ⟨saved, hsaved, htoken⟩ := hheader row hrow
  obtain ⟨loaded, hloaded, h1, h2, h3⟩ :=
    FindByID_loads (Save q ctx chat updatedAt).2 ctx chat.ID saved hq hsaved
  have hselect : ∀ wanted : Bool, db.selectMessages (Save q ctx chat updatedAt).2 chat.ID wanted =
      rowsOf chat wanted (if wanted then chat.ErasedMessages else chat.Messages) 0 := by
    intro wanted
    unfold db.selectMessages
    rw [hmessages, List.filter_append, List.filter_append, leftover_select, rowsOf_select,
      rowsOf_select]
    cases wanted
    · simp only [List.nil_append, if_true, Bool.true_eq_false, if_false, List.append_nil,
        Bool.false_eq_true]
      exact List.Sorted.insertionSort_eq (rowsOf_sorted chat false chat.Messages 0 (le_refl _)
        (by omega))
    · simp only [List.nil_append, if_true, Bool.false_eq_true, if_false]
      exact List.Sorted.insertionSort_eq (rowsOf_sorted chat true chat.ErasedMessages 0 (le_refl _)
        (by omega))
  have hA := hselect false
  have hE := hselect true
  simp only [Bool.false_eq_true, if_false, if_true] at hA hE
  rw [hA] at h2 h3
  rw [hE] at h3
  refine ⟨hdone, loaded, hloaded, ?_, ?_, ?_⟩
  · rw [h2]
    exact rowsOf_view chat false chat.Messages 0 hactive
  · rw [h1, htoken, husage]
  · rw [h3]
    have hlast := rowsOf_getLast chat true chat.ErasedMessages 0 harchive
    cases hrows : (rowsOf chat true chat.ErasedMessages 0).getLast? with
    | none =>
      rw [hrows] at hlast
      cases hmsgs : chat.ErasedMessages.getLast? with
      | none => rfl
      | some last => rw [hmsgs] at hlast; simp at hlast
    | some lastRow =>
      rw [hrows] at hlast
      cases hmsgs : chat.ErasedMessages.getLast? with
      | none => rw [hmsgs] at hlast; simp at hlast
      | some last =>
        rw [hmsgs] at hlast
        simp only [Option.map_some', Option.some.injEq] at hlast
        simp only [List.map_append, List.map_cons, List.map_nil, hlast]
        rw [rowsOf_view chat false chat.Messages 0 hactive]

/-- C1, at a session with two archived turns: `Save` succeeds and `FindByID` returns the
active window and the token usage that were saved, but an archive made of the active window
followed by the last archived message, which is not the archive that was saved. -/
theorem round_trip_changes_archive :
    (Save sample.createdDB sample.caller sample.archived 11).1 = .returned none ∧
    ∃ loaded,
      FindByID (Save sample.createdDB sample.caller sample.archived 11).2 sample.caller "c1" =
        .ok loaded ∧
      loaded.Messages.map Message.view = sample.archived.Messages.map Message.view ∧
      loaded.TokenUsage = sample.archived.TokenUsage ∧
      loaded.ErasedMessages.map Message.view =
        (sample.archived.Messages ++ [sample.reply]).map Message.view ∧
      loaded.ErasedMessages.map Message.view ≠ sample.archived.ErasedMessages.map Message.view :=
  ⟨by decide, _, rfl, by decide, by decide, by decide, by decide⟩

/-- C2, at a stored session whose only active row is the system message and whose only erased
row is a user turn: the archive `FindByID` returns starts with the system message. -/
theorem reload_puts_system_message_in_archive :
    (db.selectMessages sample.erasedDB "c1" false).map (fun row => row.Role) = ["system"] ∧
    (db.selectMessages sample.erasedDB "c1" true).map (fun row => row.Role) = ["user"] ∧
    ∃ loaded,
      FindByID sample.erasedDB sample.caller "c1" = .ok loaded ∧
      loaded.Messages.map Message.view = [sample.systemMessage.view] ∧
      loaded.ErasedMessages.map Message.view = [sample.systemMessage.view, sample.hello.view] ∧
      loaded.ErasedMessages.any (fun m => m.Role == "system") = true :=
  ⟨by decide, by decide, _, rfl, by decide, by decide, by decide⟩

/-- C4, at a database that holds the session but whose connection is refused: the header
query fails with the connection error, `FindByID` returns the very error it returns when
there is no row, and the synchronous use case goes on to create a new session. -/
theorem connection_error_reads_as_not_found :
    sample.downDB.FindByID "c1" =
      .error "dial tcp 127.0.0.1:3306: connect: connection refused" ∧
    sample.emptyDB.FindByID "c1" = .error db.ErrNoRows ∧
    FindByID sample.downDB sample.caller "c1" = .error "chat not found" ∧
    FindByID sample.emptyDB sample.caller "c1" = .error "chat not found" ∧
    (chatcompletion.Execute sample.pkg ⟨sample.lookingUp sample.downDB, sample.answering⟩
        sample.caller sample.question).calls.any Call.isCreate = true :=
  ⟨rfl, rfl, rfl, rfl, by decide⟩

/-- C10, at a session with an empty stop list: `Create` and `Save` both panic with an index
out of range, and leave the database as it was. -/
theorem empty_stop_list_panics :
    sample.withoutStop.Configuration.Stop = [] ∧
    Create sample.emptyDB sample.caller sample.withoutStop 10 10 =
      (.panicked "runtime error: index out of range [0] with length 0", sample.emptyDB) ∧
    Save sample.createdDB sample.caller sample.withoutStop 11 =
      (.panicked "runtime error: index out of range [0] with length 0", sample.createdDB) :=
  ⟨rfl, rfl, rfl⟩

end repositories


/-! ## Theorems: the synchronous use case -/

namespace chatcompletion

open entity

/-- The role "system" is not the role "assistant". -/
theorem system_ne_assistant : ("system" == "assistant") = false := by decide

/-- The role "user" is not the role "assistant". -/
theorem user_ne_assistant : ("user" == "assistant") = false := by decide

/-- The calls of `createNewChat` are calls of `NewMessage` for the system message and of
`NewChat`. -/
theorem sync_createNewChat_calls (pkg : Package) (input : ChatCompletionInput) :
    ∀ c ∈ (createNewChat pkg input).2, c.isSave = false ∧ c.isProvider = false ∧
      c.isAddMessage = false ∧ c.isAssistantMessage = false := by
  intro c hc
  unfold createNewChat at hc
  cases h1 : pkg.NewMessage "system" input.Configuration.InitialSystemMessage
      (NewModel input.Configuration.Model input.Configuration.ModelMaxTokens) with
  | error err =>
    simp only [h1, List.mem_singleton] at hc
    subst hc
    simp [Call.isSave, Call.isProvider, Call.isAddMessage, Call.isAssistantMessage,
      system_ne_assistant]
  | ok initialMessage =>
    simp only [h1] at hc
    split at hc
    all_goals
      simp only [List.mem_cons, List.mem_singleton, List.not_mem_nil, or_false] at hc
      rcases hc with rfl | rfl
    all_goals
      simp [Call.isSave, Call.isProvider, Call.isAddMessage, Call.isAssistantMessage,
        system_ne_assistant]

/-- Up to the point where the session is obtained, the use case has neither saved, nor called
the provider, nor appended a message, nor built an assistant message. -/
theorem sync_findOrCreate_calls {pkg : Package} {uc : ChatCompletionUseCase} {ctx : Context}
    {input : ChatCompletionInput} {chat : Chat} {made : List Call}
    (h : findOrCreate pkg uc ctx input = .ok (chat, made)) :
    ∀ c ∈ made, c.isSave = false ∧ c.isProvider = false ∧ c.isAddMessage = false ∧
      c.isAssistantMessage = false := by
  have hnew := sync_createNewChat_calls pkg input
  unfold findOrCreate at h
  split at h
  · cases h
    simp [Call.isSave, Call.isProvider, Call.isAddMessage, Call.isAssistantMessage]
  · split at h
    · split at h
      · cases h
      · rename_i hcreate
        rw [hcreate] at hnew
        split at h
        · cases h
        · cases h
          intro c hc
          simp only [List.mem_cons, List.mem_append, List.mem_singleton, List.not_mem_nil,
            or_false] at hc
          rcases hc with rfl | hc | rfl
          · simp [Call.isSave, Call.isProvider, Call.isAddMessage, Call.isAssistantMessage]
          · exact hnew c hc
          · simp [Call.isSave, Call.isProvider, Call.isAddMessage, Call.isAssistantMessage]
    · cases h

/-- A lookup error other than "chat not found" ends the synchronous run after the lookup. -/
theorem sync_lookup_error (pkg : Package) (uc : ChatCompletionUseCase) (ctx : Context)
    (input : ChatCompletionInput) (err : String)
    (hfind : uc.ChatGateway.FindByID ctx input.ChatID = .error err)
    (hne : err ≠ "chat not found") :
    Execute pkg uc ctx input =
      { result := .error ("error fetching existing chat: " ++ err)
        calls := [.FindByID ctx input.ChatID]
        chat := none } := by
  simp only [Execute, findOrCreate, hfind, if_neg hne]

/-- C8: when the session was obtained, the user message appended, and the provider call
returns an error, the synchronous `Execute` returns an error and no output; its calls are
those made up to and including the one provider call, so the provider is called exactly once,
`Save` is not called, no assistant message is built, the only `AddMessage` is the one of the
user message, and the session in memory is the one left by that `AddMessage`. -/
theorem provider_failure_ends_sync_run (pkg : Package) (uc : ChatCompletionUseCase)
    (ctx : Context) (input : ChatCompletionInput) (found chat : Chat) (made : List Call)
    (userMessage : Message) (err : String)
    (hfind : findOrCreate pkg uc ctx input = .ok (found, made))
    (huser : pkg.NewMessage "user" input.UserMessage found.Configuration.Model = .ok userMessage)
    (hadd : pkg.AddMessage found userMessage = (none, chat))
    (hfail : uc.OpenAIClient.CreateChatCompletion .Background (request chat) = .error err) :
    (Execute pkg uc ctx input).result = .error ("error openai: " ++ err) ∧
    (Execute pkg uc ctx input).calls =
      made ++ [.NewMessage "user" input.UserMessage found.Configuration.Model,
               .AddMessage found userMessage,
               .CreateChatCompletion .Background (request chat)] ∧
    ((Execute pkg uc ctx input).calls.filter Call.isProvider).length = 1 ∧
    (∀ c ∈ (Execute pkg uc ctx input).calls, c.isSave = false ∧ c.isAssistantMessage = false) ∧
    (Execute pkg uc ctx input).calls.filter Call.isAddMessage = [.AddMessage found userMessage] ∧
    (Execute pkg uc ctx input).chat = some chat := by
  have hmade := sync_findOrCreate_calls hfind
  have hrun : Execute pkg uc ctx input =
      { result := .error ("error openai: " ++ err)
        calls := made ++ [.NewMessage "user" input.UserMessage found.Configuration.Model,
                          .AddMessage found userMessage,
                          .CreateChatCompletion .Background (request chat)]
        chat := some chat } := by
    simp only [Execute, hfind, huser, hadd, hfail, List.append_assoc, List.cons_append,
      List.nil_append]
  have hprovider : made.filter Call.isProvider = [] :=
    List.filter_eq_nil_iff.mpr (fun c hc => by simp [(hmade c hc).2.1])
  have happend : made.filter Call.isAddMessage = [] :=
    List.filter_eq_nil_iff.mpr (fun c hc => by simp [(hmade c hc).2.2.1])
  rw [hrun]
  refine ⟨rfl, rfl, ?_, ?_, ?_, rfl⟩
  · simp [List.filter_append, hprovider, List.filter_cons, Call.isProvider]
  · intro c hc
    simp only [List.mem_append, List.mem_cons, List.mem_singleton, List.not_mem_nil,
      or_false] at hc
    rcases hc with hc | rfl | rfl | rfl
    · exact ⟨(hmade c hc).1, (hmade c hc).2.2.2⟩
    · simp [Call.isSave, Call.isAssistantMessage, user_ne_assistant]
    · simp [Call.isSave, Call.isAssistantMessage]
    · simp [Call.isSave, Call.isAssistantMessage]
  · simp [List.filter_append, happend, List.filter_cons, Call.isAddMessage]

/-- The calls of a run that ends before the session is obtained are not provider calls. -/
theorem sync_findOrCreate_error_calls {pkg : Package} {uc : ChatCompletionUseCase}
    {ctx : Context} {input : ChatCompletionInput} {run : Run}
    (h : findOrCreate pkg uc ctx input = .error run) :
    ∀ c ∈ run.calls, c.isProvider = false := by
  have hnew := sync_createNewChat_calls pkg input
  unfold findOrCreate at h
  split at h
  · cases h
  · split at h
    · split at h
      · rename_i hcreate
        rw [hcreate] at hnew
        cases h
        intro c hc
        simp only [List.mem_cons] at hc
        rcases hc with rfl | hc
        · rfl
        · exact (hnew c hc).2.1
      · rename_i hcreate
        rw [hcreate] at hnew
        split at h
        · cases h
          intro c hc
          simp only [List.mem_cons, List.mem_append, List.mem_singleton, List.not_mem_nil,
            or_false] at hc
          rcases hc with rfl | hc | rfl
          · rfl
          · exact (hnew c hc).2.1
          · rfl
        · cases h
    · cases h
      intro c hc
      simp only [List.mem_singleton] at hc
      subst hc
      rfl

/-- Calls that are not provider calls were given no provider context. -/
theorem providerContext_of_not_isProvider (l : List Call) (h : ∀ c ∈ l, c.isProvider = false) :
    l.filterMap Call.providerContext = [] := by
  rw [List.filterMap_eq_nil_iff]
  intro c hc
  have := h c hc
  cases c <;> simp_all [Call.isProvider, Call.providerContext]

/-- Whatever context the caller supplies, the synchronous use case calls the provider at most
once, and with the background context. -/
theorem sync_provider_context (pkg : Package) (uc : ChatCompletionUseCase) (ctx : Context)
    (input : ChatCompletionInput) :
    (Execute pkg uc ctx input).calls.filterMap Call.providerContext = [] ∨
    (Execute pkg uc ctx input).calls.filterMap Call.providerContext = [.Background] := by
  unfold Execute
  split
  · rename_i run hrun
    exact Or.inl (providerContext_of_not_isProvider _ (sync_findOrCreate_error_calls hrun))
  · rename_i chat made hfind
    have hmade := providerContext_of_not_isProvider made
      (fun c hc => (sync_findOrCreate_calls hfind c hc).2.1)
    repeat' first
      | split
      | dsimp only
    all_goals simp [List.filterMap_append, hmade, Call.providerContext]

end chatcompletion

/-! ## Theorems: the streaming use case -/

namespace chatcompletionstream

open entity

/-- Joining a list of strings: the head, then the join of the tail. -/
theorem join_cons (d : String) (ds : List String) : String.join (d :: ds) = d ++ String.join ds := by
  apply String.ext
  simp [String.join_eq]

/-- Joining no string gives the empty string. -/
theorem join_nil : String.join [] = "" := rfl

/-- When every response has a choice, the loop ends as the stream ends. -/
theorem receive_exit (chatID userID : String) (terminal : openai.RecvError) :
    ∀ (pending : List openai.ChatCompletionStreamResponse) (fullResponse : String)
      (sent : List ChatCompletionOutput),
      (∀ r ∈ pending, r.Choices ≠ []) →
      (receive chatID userID terminal pending fullResponse sent).exit =
        (match terminal with | .EOF => LoopExit.eof | .other err => LoopExit.failed err) := by
  intro pending
  induction pending with
  | nil => intro fullResponse sent _; cases terminal <;> rfl
  | cons r rest ih =>
    intro fullResponse sent h
    have hr : r.Choices ≠ [] := h r (List.mem_cons_self _ _)
    have hrest : ∀ x ∈ rest, x.Choices ≠ [] := fun x hx => h x (List.mem_cons_of_mem _ hx)
    cases hc : r.Choices with
    | nil => exact absurd hc hr
    | cons c cs =>
      simp only [receive, hc]
      exact ih _ _ hrest

/-- When every response has a choice, the loop sends one output per response, each with the
text accumulated up to that response. -/
theorem receive_sent (chatID userID : String) (terminal : openai.RecvError) :
    ∀ (pending : List openai.ChatCompletionStreamResponse) (fullResponse : String)
      (sent : List ChatCompletionOutput),
      (∀ r ∈ pending, r.Choices ≠ []) →
      (receive chatID userID terminal pending fullResponse sent).sent =
        sent ++ (List.range pending.length).map (fun k =>
          { ChatID := chatID, UserID := userID,
            Content := fullResponse ++ String.join ((pending.map delta).take (k + 1)) }) := by
  intro pending
  induction pending with
  | nil => intro fullResponse sent _; cases terminal <;> simp [receive]
  | cons r rest ih =>
    intro fullResponse sent h
    have hr : r.Choices ≠ [] := h r (List.mem_cons_self _ _)
    have hrest : ∀ x ∈ rest, x.Choices ≠ [] := fun x hx => h x (List.mem_cons_of_mem _ hx)
    cases hc : r.Choices with
    | nil => exact absurd hc hr
    | cons c cs =>
      simp only [receive, hc]
      rw [ih _ _ hrest]
      have hd : delta r = c.Delta.Content := by simp [delta, hc]
      simp [List.range_succ_eq_map, join_cons, join_nil, hd, String.append_assoc, Function.comp_def]

/-- When every response has a choice, the loop accumulates all the deltas. -/
theorem receive_fullResponse (chatID userID : String) (terminal : openai.RecvError) :
    ∀ (pending : List openai.ChatCompletionStreamResponse) (fullResponse : String)
      (sent : List ChatCompletionOutput),
      (∀ r ∈ pending, r.Choices ≠ []) →
      (receive chatID userID terminal pending fullResponse sent).fullResponse =
        fullResponse ++ String.join (pending.map delta) := by
  intro pending
  induction pending with
  | nil => intro fullResponse sent _; cases terminal <;> simp [receive, String.join]
  | cons r rest ih =>
    intro fullResponse sent h
    have hr : r.Choices ≠ [] := h r (List.mem_cons_self _ _)
    have hrest : ∀ x ∈ rest, x.Choices ≠ [] := fun x hx => h x (List.mem_cons_of_mem _ hx)
    cases hc : r.Choices with
    | nil => exact absurd hc hr
    | cons c cs =>
      simp only [receive, hc]
      rw [ih _ _ hrest]
      have hd : delta r = c.Delta.Content := by simp [delta, hc]
      simp [join_cons, hd, String.append_assoc]


/-- The byte size of a list of characters is additive. -/
theorem utf8ByteSize_go_append (l₁ l₂ : List Char) :
    String.utf8ByteSize.go (l₁ ++ l₂) = String.utf8ByteSize.go l₁ + String.utf8ByteSize.go l₂ := by
  induction l₁ with
  | nil => simp [String.utf8ByteSize.go]
  | cons c cs ih => simp [String.utf8ByteSize.go, ih]; omega

/-- The byte size of a concatenation is the sum of the byte sizes. -/
theorem utf8ByteSize_append (s t : String) :
    (s ++ t).utf8ByteSize = s.utf8ByteSize + t.utf8ByteSize := by
  cases s; cases t
  simp only [String.utf8ByteSize]
  exact utf8ByteSize_go_append _ _

/-- The loop keeps the outputs growing, and the last one sent carries the accumulated text. -/
theorem receive_grows (chatID userID : String) (terminal : openai.RecvError) :
    ∀ (pending : List openai.ChatCompletionStreamResponse) (fullResponse : String)
      (sent : List ChatCompletionOutput),
      List.Chain' (fun a b : ChatCompletionOutput =>
        (∃ suffix, b.Content = a.Content ++ suffix) ∧
          a.Content.utf8ByteSize ≤ b.Content.utf8ByteSize) sent →
      (∀ last, sent.getLast? = some last → last.Content = fullResponse) →
      List.Chain' (fun a b : ChatCompletionOutput =>
        (∃ suffix, b.Content = a.Content ++ suffix) ∧
          a.Content.utf8ByteSize ≤ b.Content.utf8ByteSize)
        (receive chatID userID terminal pending fullResponse sent).sent ∧
      (∀ last, (receive chatID userID terminal pending fullResponse sent).sent.getLast? = some last →
        last.Content = (receive chatID userID terminal pending fullResponse sent).fullResponse) := by
  intro pending
  induction pending with
  | nil =>
    intro fullResponse sent hchain hlast
    cases terminal <;> exact ⟨hchain, hlast⟩
  | cons r rest ih =>
    intro fullResponse sent hchain hlast
    cases hc : r.Choices with
    | nil => simp only [receive, hc]; exact ⟨hchain, hlast⟩
    | cons c cs =>
      simp only [receive, hc]
      apply ih
      · rw [List.chain'_append]
        refine ⟨hchain, List.chain'_singleton _, ?_⟩
        intro x hx y hy
        simp only [List.head?_cons, Option.mem_def, Option.some.injEq] at hy
        subst hy
        have hx' : x.Content = fullResponse := hlast x hx
        simp only [hx']
        exact ⟨⟨_, rfl⟩, by rw [utf8ByteSize_append]; omega⟩
      · intro last h
        simp at h
        rw [← h]


/-- The calls of `createNewChat` are calls of `NewMessage` for the system message and of
`NewChat`. -/
theorem stream_createNewChat_calls (pkg : Package) (input : ChatCompletionInput) :
    ∀ c ∈ (createNewChat pkg input).2, c.isSave = false ∧ c.isProvider = false ∧
      c.isAddMessage = false ∧ c.isAssistantMessage = false := by
  intro c hc
  unfold createNewChat at hc
  cases h1 : pkg.NewMessage "system" input.Config.InitialSystemMessage
      (NewModel input.Config.Model input.Config.ModelMaxTokens) with
  | error err =>
    simp only [h1, List.mem_singleton] at hc
    subst hc
    simp [Call.isSave, Call.isProvider, Call.isAddMessage, Call.isAssistantMessage,
      chatcompletion.system_ne_assistant]
  | ok initialMessage =>
    simp only [h1] at hc
    split at hc
    all_goals
      simp only [List.mem_cons, List.mem_singleton, List.not_mem_nil, or_false] at hc
      rcases hc with rfl | rfl
    all_goals
      simp [Call.isSave, Call.isProvider, Call.isAddMessage, Call.isAssistantMessage,
        chatcompletion.system_ne_assistant]

/-- Up to the point where the session is obtained, the use case has neither saved, nor called
the provider, nor appended a message, nor built an assistant message. -/
theorem stream_findOrCreate_calls {pkg : Package} {uc : ChatCompletionUseCase} {ctx : Context}
    {input : ChatCompletionInput} {chat : Chat} {made : List Call}
    (h : findOrCreate pkg uc ctx input = .ok (chat, made)) :
    ∀ c ∈ made, c.isSave = false ∧ c.isProvider = false ∧ c.isAddMessage = false ∧
      c.isAssistantMessage = false := by
  have hnew := stream_createNewChat_calls pkg input
  unfold findOrCreate at h
  split at h
  · cases h
    simp [Call.isSave, Call.isProvider, Call.isAddMessage, Call.isAssistantMessage]
  · split at h
    · split at h
      · cases h
      · rename_i hcreate
        rw [hcreate] at hnew
        split at h
        · cases h
        · cases h
          intro c hc
          simp only [List.mem_cons, List.mem_append, List.mem_singleton, List.not_mem_nil, or_false] at hc
          rcases hc with rfl | hc | rfl
          · simp [Call.isSave, Call.isProvider, Call.isAddMessage, Call.isAssistantMessage]
          · exact hnew c hc
          · simp [Call.isSave, Call.isProvider, Call.isAddMessage, Call.isAssistantMessage]
    · cases h

/-- C5: when the session was obtained, the user message appended, and the provider stream
delivers the responses `res.pending`, each with at least one choice, and then `io.EOF`, the
streaming `Execute` sends exactly one output per response, in order, and the `k`-th carries the
id of the session, the user id of the input and the concatenation of the first `k` deltas. -/
theorem stream_sends_accumulated_text (pkg : Package) (uc : ChatCompletionUseCase)
    (ctx : Context) (input : ChatCompletionInput) (found chat : Chat) (made : List Call)
    (userMessage : Message) (res : openai.ChatCompletionStream)
    (hfind : findOrCreate pkg uc ctx input = .ok (found, made))
    (huser : pkg.NewMessage "user" input.UserMessage found.Configuration.Model = .ok userMessage)
    (hadd : pkg.AddMessage found userMessage = (none, chat))
    (hopen : uc.OpenAiClient.CreateChatCompletionStream ctx (request chat) = .ok res)
    (heof : res.terminal = .EOF)
    (hdelta : ∀ response ∈ res.pending, response.Choices ≠ []) :
    (Execute pkg uc ctx input).sent.length = res.pending.length ∧
    (∀ k, k < res.pending.length →
      (Execute pkg uc ctx input).sent[k]? =
        some { ChatID := chat.ID, UserID := input.UserID,
               Content := String.join ((res.pending.map delta).take (k + 1)) }) := by
  have hexit := receive_exit chat.ID input.UserID res.terminal res.pending "" [] hdelta
  have hsent := receive_sent chat.ID input.UserID res.terminal res.pending "" [] hdelta
  simp only [heof] at hexit
  have hrun : (Execute pkg uc ctx input).sent =
      (receive chat.ID input.UserID res.terminal res.pending "" []).sent := by
    simp only [Execute, hfind, huser, hadd, hopen, heof, hexit]
    repeat' split
    all_goals rfl
  rw [hrun, hsent]
  constructor
  · simp
  · intro k hk
    simp [hk]


/-- A run that ends before the session is obtained sends nothing and returns an error. -/
theorem stream_findOrCreate_error {pkg : Package} {uc : ChatCompletionUseCase} {ctx : Context}
    {input : ChatCompletionInput} {run : Run}
    (h : findOrCreate pkg uc ctx input = .error run) :
    run.sent = [] ∧ ∃ err, run.result = .error err := by
  unfold findOrCreate at h
  repeat' split at h
  all_goals first
    | (cases h; exact ⟨rfl, _, rfl⟩)
    | cases h

/-- C6: in every successful run of the streaming `Execute`, each output sent extends the
content of the one sent before it and is at least as long (in bytes), and the content of the
returned output is the content of the last output sent, when there is one. -/
theorem stream_outputs_grow (pkg : Package) (uc : ChatCompletionUseCase) (ctx : Context)
    (input : ChatCompletionInput) (output : ChatCompletionOutput)
    (hok : (Execute pkg uc ctx input).result = .ok output) :
    List.Chain' (fun a b : ChatCompletionOutput =>
        (∃ suffix, b.Content = a.Content ++ suffix) ∧
          a.Content.utf8ByteSize ≤ b.Content.utf8ByteSize)
      (Execute pkg uc ctx input).sent ∧
    (∀ last, (Execute pkg uc ctx input).sent.getLast? = some last →
      output.Content = last.Content) := by
  have hloop := fun chatID userID terminal pending =>
    receive_grows chatID userID terminal pending "" [] List.chain'_nil (by simp)
  revert hok
  unfold Execute
  split
  · rename_i run hrun
    obtain ⟨_, err, herr⟩ := stream_findOrCreate_error hrun
    intro hok
    rw [herr] at hok
    cases hok
  · repeat' first
      | split
      | (intro hok; cases hok)
      | dsimp only
    exact ⟨(hloop _ _ _ _).1, fun last hlast => ((hloop _ _ _ _).2 last hlast).symm⟩


/-- The calls of a run that ends before the session is obtained are not provider calls. -/
theorem stream_findOrCreate_error_calls {pkg : Package} {uc : ChatCompletionUseCase}
    {ctx : Context} {input : ChatCompletionInput} {run : Run}
    (h : findOrCreate pkg uc ctx input = .error run) :
    ∀ c ∈ run.calls, c.isProvider = false := by
  have hnew := stream_createNewChat_calls pkg input
  unfold findOrCreate at h
  split at h
  · cases h
  · split at h
    · split at h
      · rename_i hcreate
        rw [hcreate] at hnew
        cases h
        intro c hc
        simp only [List.mem_cons] at hc
        rcases hc with rfl | hc
        · rfl
        · exact (hnew c hc).2.1
      · rename_i hcreate
        rw [hcreate] at hnew
        split at h
        · cases h
          intro c hc
          simp only [List.mem_cons, List.mem_append, List.mem_singleton, List.not_mem_nil,
            or_false] at hc
          rcases hc with rfl | hc | rfl
          · rfl
          · exact (hnew c hc).2.1
          · rfl
        · cases h
    · cases h
      intro c hc
      simp only [List.mem_singleton] at hc
      subst hc
      rfl

/-- The streaming use case calls the provider at most once, and with the context of its
caller. -/
theorem stream_provider_context (pkg : Package) (uc : ChatCompletionUseCase) (ctx : Context)
    (input : ChatCompletionInput) :
    (Execute pkg uc ctx input).calls.filterMap Call.providerContext = [] ∨
    (Execute pkg uc ctx input).calls.filterMap Call.providerContext = [ctx] := by
  unfold Execute
  split
  · rename_i run hrun
    exact Or.inl (chatcompletion.providerContext_of_not_isProvider _
      (stream_findOrCreate_error_calls hrun))
  · rename_i chat made hfind
    have hmade := chatcompletion.providerContext_of_not_isProvider made
      (fun c hc => (stream_findOrCreate_calls hfind c hc).2.1)
    repeat' first
      | split
      | dsimp only
    all_goals simp [List.filterMap_append, hmade, Call.providerContext]

/-- A lookup error other than "chat not found" ends the streaming run after the lookup. -/
theorem stream_lookup_error (pkg : Package) (uc : ChatCompletionUseCase) (ctx : Context)
    (input : ChatCompletionInput) (err : String)
    (hfind : uc.ChatGateway.FindByID ctx input.ChatID = .error err)
    (hne : err ≠ "chat not found") :
    Execute pkg uc ctx input =
      { result := .error ("error fetching existing chat: " ++ err)
        calls := [.FindByID ctx input.ChatID]
        chat := none
        sent := [] } := by
  simp only [Execute, findOrCreate, hfind, if_neg hne]

/-- C7: when the session was obtained, the user message appended, and the provider stream
delivers the responses `res.pending`, each with at least one choice, and then an error other
than `io.EOF`, the streaming `Execute` returns an error and no output; its calls end with the
opening of the stream, so `Save` is not called, no assistant message is built, the only
`AddMessage` is the one of the user message, and the session in memory is the one left by that
`AddMessage`; the outputs sent are exactly the accumulated texts of the responses delivered. -/
theorem stream_failure_midway (pkg : Package) (uc : ChatCompletionUseCase)
    (ctx : Context) (input : ChatCompletionInput) (found chat : Chat) (made : List Call)
    (userMessage : Message) (res : openai.ChatCompletionStream) (err : String)
    (hfind : findOrCreate pkg uc ctx input = .ok (found, made))
    (huser : pkg.NewMessage "user" input.UserMessage found.Configuration.Model = .ok userMessage)
    (hadd : pkg.AddMessage found userMessage = (none, chat))
    (hopen : uc.OpenAiClient.CreateChatCompletionStream ctx (request chat) = .ok res)
    (hfail : res.terminal = .other err)
    (hdelta : ∀ response ∈ res.pending, response.Choices ≠ []) :
    (Execute pkg uc ctx input).result = .error ("error streaming response: " ++ err) ∧
    (Execute pkg uc ctx input).calls =
      made ++ [.NewMessage "user" input.UserMessage found.Configuration.Model,
               .AddMessage found userMessage,
               .CreateChatCompletionStream ctx (request chat)] ∧
    (∀ c ∈ (Execute pkg uc ctx input).calls, c.isSave = false ∧ c.isAssistantMessage = false) ∧
    (Execute pkg uc ctx input).calls.filter Call.isAddMessage = [.AddMessage found userMessage] ∧
    (Execute pkg uc ctx input).chat = some chat ∧
    (Execute pkg uc ctx input).sent.length = res.pending.length ∧
    (∀ k, k < res.pending.length →
      (Execute pkg uc ctx input).sent[k]? =
        some { ChatID := chat.ID, UserID := input.UserID,
               Content := String.join ((res.pending.map delta).take (k + 1)) }) := by
  have hmade := stream_findOrCreate_calls hfind
  have hexit := receive_exit chat.ID input.UserID res.terminal res.pending "" [] hdelta
  have hsent := receive_sent chat.ID input.UserID res.terminal res.pending "" [] hdelta
  simp only [hfail] at hexit hsent
  have hrun : Execute pkg uc ctx input =
      { result := .error ("error streaming response: " ++ err)
        calls := made ++ [.NewMessage "user" input.UserMessage found.Configuration.Model,
                          .AddMessage found userMessage,
                          .CreateChatCompletionStream ctx (request chat)]
        chat := some chat
        sent := (receive chat.ID input.UserID (.other err) res.pending "" []).sent } := by
    simp only [Execute, hfind, huser, hadd, hopen, hfail, hexit, List.append_assoc,
      List.cons_append, List.nil_append]
  have happend : made.filter Call.isAddMessage = [] :=
    List.filter_eq_nil_iff.mpr (fun c hc => by simp [(hmade c hc).2.2.1])
  rw [hrun]
  refine ⟨rfl, rfl, ?_, ?_, rfl, ?_, ?_⟩
  · intro c hc
    simp only [List.mem_append, List.mem_cons, List.mem_singleton, List.not_mem_nil,
      or_false] at hc
    rcases hc with hc | rfl | rfl | rfl
    · exact ⟨(hmade c hc).1, (hmade c hc).2.2.2⟩
    · simp [Call.isSave, Call.isAssistantMessage, chatcompletion.user_ne_assistant]
    · simp [Call.isSave, Call.isAssistantMessage]
    · simp [Call.isSave, Call.isAssistantMessage]
  · simp [List.filter_append, happend, List.filter_cons, Call.isAddMessage]
  · simp [hsent]
  · intro k hk
    simp [hsent, hk]

end chatcompletionstream

/-! ## Theorems: both use cases -/

/-- C3: in both use cases, when `FindByID` of the gateway returns an error whose text is not
"chat not found", `Execute` returns an error and no output, and the lookup is the only call it
makes: neither `Create`, nor the provider, nor `Save` is called (and nothing is sent). -/
theorem lookup_error_ends_the_run (pkg : entity.Package) (ctx : Context) :
    (∀ (uc : chatcompletion.ChatCompletionUseCase) (input : chatcompletion.ChatCompletionInput)
        (err : String),
        uc.ChatGateway.FindByID ctx input.ChatID = .error err → err ≠ "chat not found" →
          (chatcompletion.Execute pkg uc ctx input).result =
              .error ("error fetching existing chat: " ++ err) ∧
            (chatcompletion.Execute pkg uc ctx input).calls = [.FindByID ctx input.ChatID]) ∧
    (∀ (uc : chatcompletionstream.ChatCompletionUseCase)
        (input : chatcompletionstream.ChatCompletionInput) (err : String),
        uc.ChatGateway.FindByID ctx input.ChatID = .error err → err ≠ "chat not found" →
          (chatcompletionstream.Execute pkg uc ctx input).result =
              .error ("error fetching existing chat: " ++ err) ∧
            (chatcompletionstream.Execute pkg uc ctx input).calls = [.FindByID ctx input.ChatID] ∧
            (chatcompletionstream.Execute pkg uc ctx input).sent = []) := by
  constructor
  · intro uc input err hfind hne
    rw [chatcompletion.sync_lookup_error pkg uc ctx input err hfind hne]
    exact ⟨rfl, rfl⟩
  · intro uc input err hfind hne
    rw [chatcompletionstream.stream_lookup_error pkg uc ctx input err hfind hne]
    exact ⟨rfl, rfl, rfl⟩

/-- C3, witness: a connection error of the lookup, in both use cases. -/
theorem lookup_error_ends_the_run_witness :
    ((chatcompletion.Execute sample.pkg ⟨sample.unreachable, sample.answering⟩ sample.caller
          sample.question).result =
        .error ("error fetching existing chat: " ++
          "dial tcp 127.0.0.1:3306: connect: connection refused") ∧
      (chatcompletion.Execute sample.pkg ⟨sample.unreachable, sample.answering⟩ sample.caller
          sample.question).calls = [.FindByID sample.caller "c1"]) ∧
    ((chatcompletionstream.Execute sample.pkg ⟨sample.unreachable, sample.answering⟩ sample.caller
          sample.streamQuestion).result =
        .error ("error fetching existing chat: " ++
          "dial tcp 127.0.0.1:3306: connect: connection refused") ∧
      (chatcompletionstream.Execute sample.pkg ⟨sample.unreachable, sample.answering⟩ sample.caller
          sample.streamQuestion).calls = [.FindByID sample.caller "c1"] ∧
      (chatcompletionstream.Execute sample.pkg ⟨sample.unreachable, sample.answering⟩ sample.caller
          sample.streamQuestion).sent = []) :=
  ⟨(lookup_error_ends_the_run sample.pkg sample.caller).1
      ⟨sample.unreachable, sample.answering⟩ sample.question _ rfl (by decide),
   (lookup_error_ends_the_run sample.pkg sample.caller).2
      ⟨sample.unreachable, sample.answering⟩ sample.streamQuestion _ rfl (by decide)⟩

/-- C5, witness: the stream "Hel", "lo", end of stream. -/
theorem stream_sends_accumulated_text_witness :
    (chatcompletionstream.Execute sample.pkg ⟨sample.holding, sample.answering⟩ sample.caller
        sample.streamQuestion).sent.length = 2 ∧
    (chatcompletionstream.Execute sample.pkg ⟨sample.holding, sample.answering⟩ sample.caller
        sample.streamQuestion).sent[0]? = some { ChatID := "c1", UserID := "u1", Content := "Hel" } ∧
    (chatcompletionstream.Execute sample.pkg ⟨sample.holding, sample.answering⟩ sample.caller
        sample.streamQuestion).sent[1]? =
      some { ChatID := "c1", UserID := "u1", Content := "Hello" } :=
  have h := chatcompletionstream.stream_sends_accumulated_text sample.pkg
    ⟨sample.holding, sample.answering⟩ sample.caller sample.streamQuestion sample.fresh sample.asked
    [.FindByID sample.caller "c1"] sample.userMessage
    { pending := [sample.chunk "Hel", sample.chunk "lo"], terminal := .EOF }
    rfl rfl rfl rfl rfl (by decide)
  ⟨h.1, h.2 0 (by decide), h.2 1 (by decide)⟩

/-- C6, witness: the successful run on the stream "Hel", "lo". -/
theorem stream_outputs_grow_witness :
    (chatcompletionstream.Execute sample.pkg ⟨sample.holding, sample.answering⟩ sample.caller
        sample.streamQuestion).result = .ok { ChatID := "c1", UserID := "u1", Content := "Hello" } ∧
    List.Chain' (fun a b : chatcompletionstream.ChatCompletionOutput =>
        (∃ suffix, b.Content = a.Content ++ suffix) ∧
          a.Content.utf8ByteSize ≤ b.Content.utf8ByteSize)
      (chatcompletionstream.Execute sample.pkg ⟨sample.holding, sample.answering⟩ sample.caller
        sample.streamQuestion).sent ∧
    (chatcompletionstream.Execute sample.pkg ⟨sample.holding, sample.answering⟩ sample.caller
        sample.streamQuestion).sent.getLast? =
      some { ChatID := "c1", UserID := "u1", Content := "Hello" } :=
  ⟨rfl,
   (chatcompletionstream.stream_outputs_grow sample.pkg ⟨sample.holding, sample.answering⟩
      sample.caller sample.streamQuestion { ChatID := "c1", UserID := "u1", Content := "Hello" }
      rfl).1,
   rfl⟩

/-- C7, witness: the stream "Hel", "lo", then a transport error. -/
theorem stream_failure_midway_witness :
    (chatcompletionstream.Execute sample.pkg ⟨sample.holding, sample.failing⟩ sample.caller
        sample.streamQuestion).result =
      .error ("error streaming response: " ++ "unexpected EOF in body") ∧
    (chatcompletionstream.Execute sample.pkg ⟨sample.holding, sample.failing⟩ sample.caller
        sample.streamQuestion).chat = some sample.asked ∧
    (chatcompletionstream.Execute sample.pkg ⟨sample.holding, sample.failing⟩ sample.caller
        sample.streamQuestion).sent.length = 2 :=
  have h := chatcompletionstream.stream_failure_midway sample.pkg
    ⟨sample.holding, sample.failing⟩ sample.caller sample.streamQuestion sample.fresh sample.asked
    [.FindByID sample.caller "c1"] sample.userMessage
    { pending := [sample.chunk "Hel", sample.chunk "lo"], terminal := .other "unexpected EOF in body" }
    "unexpected EOF in body" rfl rfl rfl rfl rfl (by decide)
  ⟨h.1, h.2.2.2.2.1, h.2.2.2.2.2.1⟩

/-- C8, witness: a provider that answers with status 500. -/
theorem provider_failure_ends_sync_run_witness :
    (chatcompletion.Execute sample.pkg ⟨sample.holding, sample.failing⟩ sample.caller
        sample.question).result = .error ("error openai: " ++ "status code: 500") ∧
    ((chatcompletion.Execute sample.pkg ⟨sample.holding, sample.failing⟩ sample.caller
        sample.question).calls.filter Call.isProvider).length = 1 ∧
    (chatcompletion.Execute sample.pkg ⟨sample.holding, sample.failing⟩ sample.caller
        sample.question).chat = some sample.asked :=
  have h := chatcompletion.provider_failure_ends_sync_run sample.pkg
    ⟨sample.holding, sample.failing⟩ sample.caller sample.question sample.fresh sample.asked
    [.FindByID sample.caller "c1"] sample.userMessage "status code: 500" rfl rfl rfl rfl
  ⟨h.1, h.2.2.1, h.2.2.2.2.2⟩

/-- C9, at a caller whose context is not the background context: the synchronous use case
hands the background context to the provider, the streaming use case the context of its
caller. -/
theorem sync_provider_gets_background_context :
    sample.caller ≠ .Background ∧
    (chatcompletion.Execute sample.pkg ⟨sample.holding, sample.answering⟩ sample.caller
        sample.question).calls.filterMap Call.providerContext = [.Background] ∧
    (chatcompletionstream.Execute sample.pkg ⟨sample.holding, sample.answering⟩ sample.caller
        sample.streamQuestion).calls.filterMap Call.providerContext = [sample.caller] :=
  ⟨by decide, by decide, by decide⟩

/-! ## Theorems: creation of a session -/

namespace repositories

open entity

/-- What `Create` followed by `FindByID` returns of the configuration, for every new session
with its system message and a stop string, on a working connection: the capacity of the model
comes back as the output budget `MaxTokens`, and the presence penalty as the frequency
penalty. -/
theorem Create_then_FindByID (q : db.Queries) (ctx : Context) (chat : Chat) (message : Message)
    (createdAt updatedAt : Time) (stop0 : String) (rest : List String)
    (hfault : q.fault = none)
    (hnew : q.chats.find? (fun row => row.ID == chat.ID) = none)
    (hmessage : chat.InitialSystemMessage = some message)
    (hstop : chat.Configuration.Stop = stop0 :: rest) :
    (Create q ctx chat createdAt updatedAt).1 = .returned none ∧
    ∃ loaded, FindByID (Create q ctx chat createdAt updatedAt).2 ctx chat.ID = .ok loaded ∧
      loaded.Configuration.Model.MaxTokens = int32 chat.Configuration.MaxTokens ∧
      loaded.Configuration.MaxTokens = int32 chat.Configuration.MaxTokens ∧
      loaded.Configuration.PresencePenalty = chat.Configuration.FrequencyPenalty ∧
      loaded.Configuration.FrequencyPenalty = chat.Configuration.FrequencyPenalty := by
  constructor
  · simp only [Create, hmessage, hstop, db.Queries.Create, db.Queries.AddMessage, hfault]
  · simp only [Create, hmessage, hstop, db.Queries.Create, db.Queries.AddMessage, hfault,
      FindByID, db.Queries.FindByID, db.Queries.FindMessagesByChatID,
      db.Queries.FindErasedMessagesByChatID, List.find?_append, hnew, Option.none_or,
      List.find?_cons, beq_self_eq_true, foldl_messages, foldl_erased]
    exact ⟨_, rfl, rfl, rfl, rfl, rfl⟩

/-- C11, at a new session with model capacity 4096, output budget 50, presence penalty 1 and
frequency penalty 0: the header row `Create` writes carries `ModelMaxTokens` 50 and
`PresencePenalty` 0, and `FindByID` returns a configuration with model capacity 50 and presence
penalty 0; only `MaxTokens` and the frequency penalty come back as created. -/
theorem creation_changes_configuration :
    sample.penalised.Configuration.Model.MaxTokens = 4096 ∧
    sample.penalised.Configuration.MaxTokens = 50 ∧
    sample.penalised.Configuration.PresencePenalty = 1 ∧
    sample.penalised.Configuration.FrequencyPenalty = 0 ∧
    (Create sample.emptyDB sample.caller sample.penalised 10 10).1 = .returned none ∧
    (Create sample.emptyDB sample.caller sample.penalised 10 10).2.chats.map
        (fun row => (row.ModelMaxTokens, row.MaxTokens, row.PresencePenalty, row.FrequencyPenalty)) =
      [(50, 50, 0, 0)] ∧
    ∃ loaded,
      FindByID (Create sample.emptyDB sample.caller sample.penalised 10 10).2 sample.caller "c1" =
        .ok loaded ∧
      loaded.Configuration.Model.MaxTokens = 50 ∧
      loaded.Configuration.MaxTokens = 50 ∧
      loaded.Configuration.PresencePenalty = 0 ∧
      loaded.Configuration.FrequencyPenalty = 0 :=
  ⟨by decide, by decide, by decide, by decide, by decide, by decide, _, rfl, by decide, by decide,
    by decide, by decide⟩

end repositories

end ChatService
